import Mathlib

/-! Verification of cycloid: recording, input handling and speed control.

A shallow embedding of two translation units of the repository:

* `src/drive/drive.cc` (namespace `Drive`): the `Driver` camera callback's recording path
  (`StartRecording`, `IsRecording`, `StopRecording`, the first half of `OnFrame`), its
  odometry and localizer half, and the joystick handlers of `DriverInputReceiver`;
* `src/gpsdrive/gpsdrive.cc` (namespace `Gps`): the joystick handlers, `Quit`, and the
  control cycle `OnControlFrame`.

Conventions.  Machine integers are `Int`/`Nat` with explicit wrap-around where the source
stores into a narrower type.  Floating point values of the control law are elements of an
arbitrary linearly ordered field (`ℚ` for evaluation, `ℝ` for the exact-arithmetic reading);
decimal literals of the source are the corresponding exact fractions.  Calls into collaborators
whose code is not part of these files (flush thread, car hardware, localizer) are recorded as
traces of the calls made, in order.
-/

set_option autoImplicit false

namespace Drive

/-! ## Bytes and object representations -/

/-- A byte of a buffer (`uint8_t`), as a natural number. -/
abbrev Byte := Nat

/-- Object representation of a `uint16_t` on the little-endian target. -/
def le16 (n : Nat) : List Byte := [n % 256, n / 256 % 256]

/-- The four low-order bytes of an unsigned integer object on the little-endian target:
what `memcpy(dst, &x, 4)` copies. -/
def le32 (n : Nat) : List Byte :=
  [n % 256, n / 256 % 256, n / 65536 % 256, n / 16777216 % 256]

/-- Reading four bytes back as a little-endian `uint32_t`. -/
def u32_of_le (bs : List Byte) : Nat :=
  bs.getD 0 0 + 256 * bs.getD 1 0 + 65536 * bs.getD 2 0 + 16777216 * bs.getD 3 0

/-- Object representation of an `int8_t` (two's complement). -/
def int8_byte (x : Int) : Byte := (x % 256).toNat

/-- Storing an `int` into an `int16_t` (two's complement wrap-around). -/
def wrap16 (x : Int) : Int := (x + 32768) % 65536 - 32768

/-- The call `memcpy(dst + off, src, n)`: bytes `off .. off+n-1` of `dst` are replaced by the
first `n` bytes of `src`. -/
def memcpy (dst : List Byte) (off : Nat) (src : List Byte) (n : Nat) : List Byte :=
  dst.take off ++ src.take n ++ dst.drop (off + n)

/-- Bytes `off .. off+n-1` of a buffer. -/
def slice (b : List Byte) (off n : Nat) : List Byte := (b.drop off).take n

/-- A `float` object: its four bytes, in memory order. -/
structure F32 where
  b0 : Byte
  b1 : Byte
  b2 : Byte
  b3 : Byte
deriving DecidableEq, Repr

/-- The bytes of a `float`. -/
def F32.bytes (f : F32) : List Byte := [f.b0, f.b1, f.b2, f.b3]

/-- An `Eigen::Vector3f` object: three consecutive floats. -/
structure Vector3f where
  x : F32
  y : F32
  z : F32
deriving DecidableEq, Repr

/-- An array `uint16_t[4]`. -/
structure U16x4 where
  w0 : Nat
  w1 : Nat
  w2 : Nat
  w3 : Nat
deriving DecidableEq, Repr

/-- The eight bytes of a `uint16_t[4]`. -/
def U16x4.bytes (w : U16x4) : List Byte := le16 w.w0 ++ le16 w.w1 ++ le16 w.w2 ++ le16 w.w3

/-- A `struct timeval` as filled by `gettimeofday`. -/
structure Timeval where
  tv_sec : Nat
  tv_usec : Nat
deriving DecidableEq, Repr

/-- The file-scope variables `OnFrame` copies into a record (drive.cc lines 30, 44-47), as
they stand when the frame arrives. -/
structure Globals where
  throttle_ : Int
  steering_ : Int
  accel_ : Vector3f
  gyro_ : Vector3f
  servo_pos_ : Nat
  wheel_pos_ : U16x4
  wheel_dt_ : U16x4
deriving DecidableEq, Repr

/-! ## The flush thread, seen from its caller -/

/-- One call `flush_thread_.AddEntry(fd, buf, len)`; `buf = none` is the `NULL` pointer. -/
structure Entry where
  fd : Int
  buf : Option (List Byte)
  len : Int
deriving DecidableEq, Repr

/-- The calls to `flush_thread_.AddEntry`, in the order they were made. -/
abbrev Submitted := List Entry

/-- Recording the call `flush_thread_.AddEntry(fd, buf, len)`. -/
def AddEntry (q : Submitted) (fd : Int) (buf : Option (List Byte)) (len : Int) : Submitted :=
  q ++ [⟨fd, buf, len⟩]

/-! ## `class Driver` -/

/-- The configuration record as the input handlers see it, `(int16_t*) config_`: consecutive
`int16_t` slots, one for each entry of `configmenu`. -/
abbrev DriverConfig := List Int

/-- The members of `Driver` that recording and the input handlers read or write. -/
structure Driver where
  output_fd_ : Int
  frame_ : Int
  frameskip_ : Int
  autodrive_ : Bool
  config_ : DriverConfig
deriving DecidableEq, Repr

/-- The constructor `Driver::Driver` (lines 51-62); `cfg` is the configuration after the
attempted `config_.Load()`. -/
def Driver.init (cfg : DriverConfig) : Driver :=
  { output_fd_ := -1, frame_ := 0, frameskip_ := 0, autodrive_ := false, config_ := cfg }

/-- Method `Driver::StartRecording` (lines 64-76).  `fd` is the value `fileno(stdout)` or
`open(...)` returned for the file name, `-1` when the open failed. -/
def StartRecording (self : Driver) (fd : Int) (frameskip : Int) : Driver × Bool :=
  let self := { self with frameskip_ := frameskip }
  let self := { self with output_fd_ := fd }
  if self.output_fd_ = -1 then (self, false) else (self, true)

/-- Method `Driver::IsRecording` (lines 78-80). -/
def IsRecording (self : Driver) : Bool := self.output_fd_ != -1

/-- Method `Driver::StopRecording` (lines 82-88). -/
def StopRecording (self : Driver) (q : Submitted) : Driver × Submitted :=
  if self.output_fd_ = -1 then (self, q)
  else (({ self with output_fd_ := -1 }), AddEntry q self.output_fd_ none (-1))

/-- The record buffer built by `OnFrame` (lines 104-120): `new uint8_t[flushlen]` followed by
the fifteen `memcpy` calls, offsets as written in the source. -/
def flushbuf (g : Globals) (t : Timeval) (buf : List Byte) (flushlen : Nat) : List Byte :=
  let b := List.replicate flushlen 0
  let b := memcpy b 0 (le32 flushlen) 4
  let b := memcpy b 4 (le32 t.tv_sec) 4
  let b := memcpy b 8 (le32 t.tv_usec) 4
  let b := memcpy b 12 [int8_byte g.throttle_] 1
  let b := memcpy b 13 [int8_byte g.steering_] 1
  let b := memcpy b 14 g.accel_.x.bytes 4
  let b := memcpy b (14+4) g.accel_.y.bytes 4
  let b := memcpy b (14+8) g.accel_.z.bytes 4
  let b := memcpy b 26 g.gyro_.x.bytes 4
  let b := memcpy b (26+4) g.gyro_.y.bytes 4
  let b := memcpy b (26+8) g.gyro_.z.bytes 4
  let b := memcpy b 38 [g.servo_pos_ % 256] 1
  let b := memcpy b 39 g.wheel_pos_.bytes (2*4)
  let b := memcpy b 47 g.wheel_dt_.bytes (2*4)
  let b := memcpy b 55 buf buf.length
  b

/-- The recording half of `Driver::OnFrame` (lines 94-138): the frame counter and, when
recording and past the frame skip, the record handed to the flush thread.  `t` is the time
`gettimeofday` returned, `buf` the frame (`length = buf.length`).  The rest of the callback
(lines 140-209) reads `frame_` and does not touch `output_fd_`, `frameskip_` or the flush
thread. -/
def OnFrame (self : Driver) (q : Submitted) (g : Globals) (t : Timeval) (buf : List Byte) :
    Driver × Submitted :=
  let self := { self with frame_ := self.frame_ + 1 }
  if IsRecording self = true ∧ self.frame_ > self.frameskip_ then
    let self := { self with frame_ := 0 }
    let flushlen := (55 + buf.length) % 4294967296
    let b := flushbuf g t buf flushlen
    (self, AddEntry q self.output_fd_ (some b) flushlen)
  else
    (self, q)

/-! ## Call sequences on a `Driver` -/

/-- A call on the recording interface of `Driver`, with what the environment supplied. -/
inductive Call where
  | StartRecording (fd : Int) (frameskip : Int)
  | OnFrame (g : Globals) (t : Timeval) (buf : List Byte)
  | StopRecording
deriving DecidableEq, Repr

/-- Performing one call. -/
def Call.step (s : Driver × Submitted) : Call → Driver × Submitted
  | .StartRecording fd frameskip => ((Drive.StartRecording s.1 fd frameskip).1, s.2)
  | .OnFrame g t buf => Drive.OnFrame s.1 s.2 g t buf
  | .StopRecording => Drive.StopRecording s.1 s.2

/-- Performing a sequence of calls, first call first. -/
def Call.run (s : Driver × Submitted) (cs : List Call) : Driver × Submitted :=
  cs.foldl Call.step s

/-- The descriptors handed out so far: a successful `StartRecording` adds its descriptor. -/
def Call.track (opened : List Int) : Call → List Int
  | .StartRecording fd _ => if fd = -1 then opened else fd :: opened
  | _ => opened

/-- The descriptors of the successful `StartRecording` calls of a sequence. -/
def openedFds (cs : List Call) : List Int := cs.foldl Call.track []

/-- The calling discipline: `StartRecording` is called only while not recording, and a
successful call yields a descriptor that no earlier call yielded. -/
def admissible (self : Driver) (opened : List Int) : List Call → Bool
  | [] => true
  | c :: cs =>
    (match c with
      | .StartRecording fd _ => !IsRecording self && (fd == -1 || !opened.contains fd)
      | _ => true) &&
    admissible (Call.step (self, []) c).1 (Call.track opened c) cs

/-- The entries submitted for one descriptor, in submission order. -/
def entriesFor (f : Int) (q : Submitted) : Submitted := q.filter (fun e => e.fd = f)

/-- The close sentinel of a descriptor: null buffer, length `-1`. -/
def sentinel (f : Int) : Entry := ⟨f, none, -1⟩

/-! ## `class DriverInputReceiver` -/

/-- The constant `N_CONFIGITEMS`: the number of entries of `configmenu` (lines 396-406). -/
def N_CONFIGITEMS : Int := 8

/-- The assignment `*value += delta` through `int16_t *value = ((int16_t*) config_) + item`. -/
def poke (c : DriverConfig) (item : Int) (delta : Int) : DriverConfig :=
  c.set item.toNat (wrap16 (c.getD item.toNat 0 + delta))

/-- The members of `DriverInputReceiver`; `config_` points at `driver_.config_`. -/
structure DriverInputReceiver where
  config_item_ : Int
  x_down_ : Bool
  y_down_ : Bool
deriving DecidableEq, Repr

/-- What the input handlers act on: the global `driver_`, the receiver itself, the calls made
to the flush thread and the two joystick globals of line 31. -/
structure World where
  driver_ : Driver
  recv : DriverInputReceiver
  flushed : Submitted
  js_throttle_ : Int
  js_steering_ : Int
deriving DecidableEq, Repr

/-- Method `DriverInputReceiver::OnDPadPress` (lines 253-288). -/
def OnDPadPress (w : World) (direction : Char) : World :=
  let item := w.recv.config_item_
  if direction = 'U' then
    let i := w.recv.config_item_ - 1
    let i := if i < 0 then N_CONFIGITEMS - 1 else i
    { w with recv := { w.recv with config_item_ := i } }
  else if direction = 'D' then
    let i := w.recv.config_item_ + 1
    let i := if i ≥ N_CONFIGITEMS then 0 else i
    { w with recv := { w.recv with config_item_ := i } }
  else if direction = 'L' then
    let delta : Int := if w.recv.y_down_ then -100 else if w.recv.x_down_ then -10 else -1
    { w with driver_ := { w.driver_ with config_ := poke w.driver_.config_ item delta } }
  else if direction = 'R' then
    let delta : Int := if w.recv.y_down_ then 100 else if w.recv.x_down_ then 10 else 1
    { w with driver_ := { w.driver_ with config_ := poke w.driver_.config_ item delta } }
  else w

/-- Method `DriverInputReceiver::OnButtonPress` (lines 290-352).  `fd` is what `open` returns should
the handler start a recording, `loaded` the outcome of `config_->Load()` (`none` when it
fails).  `localizer_.Reset()`, `controller_.ResetState()`, `config_->Save()` and the display
calls act on collaborators only. -/
def OnButtonPress (w : World) (button : Char) (fd : Int) (loaded : Option DriverConfig) :
    World :=
  if button = '+' then
    if IsRecording w.driver_ = false then
      { w with driver_ := (StartRecording w.driver_ fd 0).1 }
    else w
  else if button = '-' then
    if IsRecording w.driver_ = true then
      let r := StopRecording w.driver_ w.flushed
      { w with driver_ := r.1, flushed := r.2 }
    else w
  else if button = 'H' then w
  else if button = 'L' then
    if w.driver_.autodrive_ = false then
      { w with driver_ := { w.driver_ with autodrive_ := true } }
    else w
  else if button = 'B' then
    match loaded with
    | some c => { w with driver_ := { w.driver_ with config_ := c } }
    | none => w
  else if button = 'A' then w
  else if button = 'X' then { w with recv := { w.recv with x_down_ := true } }
  else if button = 'Y' then { w with recv := { w.recv with y_down_ := true } }
  else w

/-- Method `DriverInputReceiver::OnButtonRelease` (lines 354-372). -/
def OnButtonRelease (w : World) (button : Char) : World :=
  if button = 'L' then
    if w.driver_.autodrive_ = true then
      { w with driver_ := { w.driver_ with autodrive_ := false } }
    else w
  else if button = 'X' then { w with recv := { w.recv with x_down_ := false } }
  else if button = 'Y' then { w with recv := { w.recv with y_down_ := false } }
  else w

/-- Method `DriverInputReceiver::OnAxisMove` (lines 374-383).  `value` is an `int16_t`; `-value` is
computed as an `int` and stored into the `int16_t` global. -/
def OnAxisMove (w : World) (axis : Int) (value : Int) : World :=
  if axis = 1 then { w with js_throttle_ := wrap16 (-value) }
  else if axis = 2 then { w with js_steering_ := value }
  else w

/-- An input event delivered to the receiver, with what the environment supplies to its
handler. -/
inductive JsEvent where
  | DPadPress (direction : Char)
  | ButtonPress (button : Char) (fd : Int) (loaded : Option DriverConfig)
  | ButtonRelease (button : Char)
  | AxisMove (axis : Int) (value : Int)
deriving DecidableEq, Repr

/-- Dispatching one event to its handler. -/
def JsEvent.deliver (w : World) : JsEvent → World
  | .DPadPress d => OnDPadPress w d
  | .ButtonPress b fd loaded => OnButtonPress w b fd loaded
  | .ButtonRelease b => OnButtonRelease w b
  | .AxisMove a v => OnAxisMove w a v

/-- Delivering a sequence of events, oldest first. -/
def deliverAll (w : World) (evs : List JsEvent) : World := evs.foldl JsEvent.deliver w

/-- The most recent `'L'` button event of a sequence: `some true` for a press, `some false`
for a release, `none` when there is none. -/
def lastL : List JsEvent → Option Bool
  | [] => none
  | e :: evs =>
    match lastL evs with
    | some b => some b
    | none =>
      match e with
      | .ButtonPress b _ _ => if b = 'L' then some true else none
      | .ButtonRelease b => if b = 'L' then some false else none
      | _ => none

/-- A data record: an entry that carries a buffer. -/
def Entry.isData (e : Entry) : Bool := e.buf.isSome

/-- The destructor `Driver::~Driver` (lines 90-92). -/
def Driver.destroy (self : Driver) (q : Submitted) : Driver × Submitted :=
  StopRecording self q

/-- Invariant of the recording protocol.  `opened` are the descriptors handed out so far:
none of them is `-1`, the descriptor being recorded to is one of them, and the entries of
every descriptor are data records, followed by its sentinel exactly when the descriptor was
handed out and is no longer the one being recorded to. -/
def ProtocolInv (self : Driver) (opened : List Int) (q : Submitted) : Prop :=
  (-1 : Int) ∉ opened ∧
  (self.output_fd_ ≠ -1 → self.output_fd_ ∈ opened) ∧
  ∀ f : Int, ∃ ds : List Entry,
    entriesFor f q =
      ds ++ (if f ∈ opened ∧ f ≠ self.output_fd_ then [sentinel f] else []) ∧
    (∀ e ∈ ds, e.isData = true) ∧ (f ∉ opened → ds = [])

/-- Invariant of a buffer being filled front to back: `b` has `N` bytes, and every field
`(off, bytes)` written so far ends at or before `hi` and still reads back unchanged. -/
def Laid (b : List Byte) (N hi : Nat) (fs : List (Nat × List Byte)) : Prop :=
  b.length = N ∧ ∀ f ∈ fs, f.1 + f.2.length ≤ hi ∧ slice b f.1 f.2.length = f.2

/-- Example telemetry: throttle -5, steering 7, accel and gyro floats with the bytes 1..24,
servo position 110, wheel positions 1..4 and wheel periods 5..8. -/
def exGlobals : Globals :=
  { throttle_ := -5, steering_ := 7,
    accel_ := ⟨⟨1, 2, 3, 4⟩, ⟨5, 6, 7, 8⟩, ⟨9, 10, 11, 12⟩⟩,
    gyro_ := ⟨⟨13, 14, 15, 16⟩, ⟨17, 18, 19, 20⟩, ⟨21, 22, 23, 24⟩⟩,
    servo_pos_ := 110, wheel_pos_ := ⟨1, 2, 3, 4⟩, wheel_dt_ := ⟨5, 6, 7, 8⟩ }

/-- Example call sequence: two recordings in a row, one frame in the first, with a redundant
stop in between. -/
def exCalls : List Call :=
  [.StartRecording 3 0, .OnFrame exGlobals ⟨1, 2⟩ [7], .StopRecording, .StopRecording,
   .StartRecording 4 0]

/-- The layout of one record, field by field: `b` is the record of frame `buf` taken at time
`t` with the telemetry `g`. -/
structure RecordLayout (b : List Byte) (g : Globals) (t : Timeval) (buf : List Byte) : Prop where
  length_eq : b.length = 55 + buf.length
  total_length : u32_of_le (slice b 0 4) = 55 + buf.length
  seconds : slice b 4 4 = le32 t.tv_sec
  microseconds : slice b 8 4 = le32 t.tv_usec
  throttle : slice b 12 1 = [int8_byte g.throttle_]
  steering : slice b 13 1 = [int8_byte g.steering_]
  accel : slice b 14 12 = g.accel_.x.bytes ++ g.accel_.y.bytes ++ g.accel_.z.bytes
  gyro : slice b 26 12 = g.gyro_.x.bytes ++ g.gyro_.y.bytes ++ g.gyro_.z.bytes
  servo_pos : slice b 38 1 = [g.servo_pos_ % 256]
  wheel_pos : slice b 39 8 = g.wheel_pos_.bytes
  wheel_dt : slice b 47 8 = g.wheel_dt_.bytes
  frame : slice b 55 buf.length = buf

/-! ## Odometry and the localizer -/

/-- The members of `Driver` that the odometry half of `OnFrame` reads or writes (lines 216,
217 and 222). -/
structure Odometry where
  firstframe_ : Bool
  last_encoders_ : U16x4
  last_t_ : Timeval
deriving DecidableEq, Repr

/-- Their values after the constructor (lines 56 and 61); `last_encoders_` starts
uninitialised, with whatever `junk` the memory holds. -/
def Odometry.init (t : Timeval) (junk : U16x4) : Odometry :=
  { firstframe_ := true, last_encoders_ := junk, last_t_ := t }

/-- A call on the localizer: `Predict(ds, gyro_[2], dt)` or `UpdateLM(bearing, precision)`.
Floats that are passed on as they were read are kept as objects, computed ones are exact. -/
inductive LocalizerCall where
  | Predict (ds : ℚ) (yaw : F32) (dt : ℚ)
  | UpdateLM (bearing : F32) (precision : ℚ)
deriving DecidableEq, Repr

/-- Subtraction of two `uint16_t` stored back into a `uint16_t`. -/
def sub16 (a b : Nat) : Nat := (a % 65536 + 65536 - b % 65536) % 65536

/-- All four entries of a `uint16_t[4]` are 16-bit values. -/
def U16x4.valid (w : U16x4) : Bool :=
  decide (w.w0 < 65536) && decide (w.w1 < 65536) && decide (w.w2 < 65536) &&
    decide (w.w3 < 65536)

/-- The odometry and coneslam half of `Driver::OnFrame` (lines 150-177 and 199): the wheel
deltas since the previous frame, the distance `ds`, and the calls made on the localizer, in
order.  `ncones` and `conestheta` are what `coneslam::FindCones` returned and wrote,
`lm_precision` is `config_.lm_precision`, and `g` is one snapshot of the globals for the
whole frame.  The sum of the deltas is below `2^18`, so a quarter of it is exact as a
`float`. -/
def OnFrame_localize (self : Odometry) (g : Globals) (t : Timeval) (ncones : Int)
    (conestheta : List F32) (lm_precision : Int) : Odometry × List LocalizerCall :=
  let dt : ℚ := ((t.tv_sec : Int) - (self.last_t_.tv_sec : Int) : Int) +
    (((t.tv_usec : Int) - (self.last_t_.tv_usec : Int) : Int) : ℚ) * (1 / 1000000)
  let last_encoders := if self.firstframe_ then g.wheel_pos_ else self.last_encoders_
  let dt : ℚ := if self.firstframe_ then 1 / 30 else dt
  let wheel_delta : U16x4 :=
    ⟨sub16 g.wheel_pos_.w0 last_encoders.w0, sub16 g.wheel_pos_.w1 last_encoders.w1,
     sub16 g.wheel_pos_.w2 last_encoders.w2, sub16 g.wheel_pos_.w3 last_encoders.w3⟩
  let ds : ℚ := 25 / 100 *
    ((wheel_delta.w0 + wheel_delta.w1 + wheel_delta.w2 + wheel_delta.w3 : Nat) : ℚ)
  let calls : List LocalizerCall :=
    if ds > 0 then
      LocalizerCall.Predict ds g.gyro_.z dt ::
        (List.range ncones.toNat).map (fun i =>
          LocalizerCall.UpdateLM (conestheta.getD i ⟨0, 0, 0, 0⟩) ((lm_precision : ℚ) * (1 / 10)))
    else []
  ({ firstframe_ := false, last_encoders_ := g.wheel_pos_, last_t_ := t }, calls)

/-- Whether a localizer call is a `Predict`. -/
def LocalizerCall.isPredict : LocalizerCall → Bool
  | .Predict _ _ _ => true
  | .UpdateLM _ _ => false

/-- What one camera frame brings to the odometry half of `OnFrame`: the globals as they
stand, the time, and what `FindCones` and the configuration supply. -/
structure FrameIn where
  g : Globals
  t : Timeval
  ncones : Int
  conestheta : List F32
  lm_precision : Int
deriving DecidableEq, Repr

/-- One frame of `OnFrame_localize`. -/
def Odometry.frame (self : Odometry) (f : FrameIn) : Odometry × List LocalizerCall :=
  OnFrame_localize self f.g f.t f.ncones f.conestheta f.lm_precision

/-- The members after a sequence of frames, oldest first. -/
def Odometry.run (self : Odometry) (fs : List FrameIn) : Odometry :=
  fs.foldl (fun s f => (s.frame f).1) self

/-- The example telemetry with the encoder counts `w`, at time 5 s and `usec` microseconds,
with `ncones` cones found. -/
def exFrameIn (w : U16x4) (usec : Nat) (ncones : Int) : FrameIn :=
  { g := { exGlobals with wheel_pos_ := w }, t := ⟨5, usec⟩, ncones := ncones,
    conestheta := [⟨1, 1, 1, 1⟩, ⟨2, 2, 2, 2⟩], lm_precision := 50 }

/-! ## Joystick inputs handed to the controller -/

/-- The throttle argument `js_throttle_ / 32767.0` of `controller_.GetControl` in
`Driver::OnFrame` (line 201). -/
def throttle_input (w : World) : ℚ := (w.js_throttle_ : ℚ) / 32767

/-- The steering argument `js_steering_ / 32767.0` of `controller_.GetControl` in
`Driver::OnFrame` (line 202). -/
def steering_input (w : World) : ℚ := (w.js_steering_ : ℚ) / 32767

/-- An input receiver state with nothing pressed and both sticks centred. -/
def exWorld : World :=
  { driver_ := Driver.init [0, 0, 0, 0, 0, 0, 0, 0], recv := ⟨0, false, false⟩, flushed := [],
    js_throttle_ := 0, js_steering_ := 0 }

end Drive

namespace Gps

/-! ## Vectors and configuration -/

/-- An `Eigen::Vector3f` over the scalars `α`; `x`, `y`, `z` are the entries `[0]`, `[1]`, `[2]`. -/
structure Vec3 (α : Type) where
  x : α
  y : α
  z : α
deriving DecidableEq, Repr

/-- The vector `Eigen::Vector3f::Zero()`. -/
def Vec3.Zero {α : Type} [LinearOrderedField α] : Vec3 α := ⟨0, 0, 0⟩

/-- Scaling a vector. -/
def Vec3.smul {α : Type} [LinearOrderedField α] (c : α) (v : Vec3 α) : Vec3 α :=
  ⟨c * v.x, c * v.y, c * v.z⟩

/-- Adding vectors. -/
def Vec3.add {α : Type} [LinearOrderedField α] (u v : Vec3 α) : Vec3 α :=
  ⟨u.x + v.x, u.y + v.y, u.z + v.z⟩

/-- Subtracting vectors. -/
def Vec3.sub {α : Type} [LinearOrderedField α] (u v : Vec3 α) : Vec3 α :=
  ⟨u.x - v.x, u.y - v.y, u.z - v.z⟩

/-- The dot product. -/
def Vec3.dot {α : Type} [LinearOrderedField α] (u v : Vec3 α) : α :=
  u.x * v.x + u.y * v.y + u.z * v.z

/-- The constant `MAGCALN` (line 17). -/
def MAGCALN {α : Type} [LinearOrderedField α] : Vec3 α :=
  ⟨3202 / 1000, -(3750 / 10000), 8825 / 10000⟩

/-- The constant `MAGCALE` (line 18). -/
def MAGCALE {α : Type} [LinearOrderedField α] : Vec3 α :=
  ⟨1091 / 1000, 2869 / 1000, -(6832 / 10000)⟩

/-- The template `clamp` (lines 20-25). -/
def clamp {α : Type} [LinearOrderedField α] (x min max : α) : α :=
  let x := if x < min then min else x
  let x := if x > max then max else x
  x

/-- The fields of `DriverConfig` that `OnControlFrame` reads, each an `int16_t` in hundredths.
The record itself is declared in `gpsdrive/config.h`. -/
structure DriverConfig where
  speed_limit : Int
  motor_gain : Int
  motor_kI : Int
  servo_offset : Int
  servo_min : Int
  servo_max : Int
deriving DecidableEq, Repr

/-- What the handlers take from `gpsdrive/config.h`: the number of menu entries, and the
effect on the record of `*value += delta` through
`int16_t *value = ((int16_t*) &config_) + item`, which depends on the layout declared there. -/
structure ConfigHeader where
  N_CONFIGITEMS : Int
  poke : DriverConfig → Int → Int → DriverConfig

/-! ## `class GPSDrive` -/

/-- The members of `GPSDrive` that the handlers and the control cycle read or write.
`record_fp_` is `true` when the log file pointer is not `NULL`. -/
structure GPSDrive (α : Type) where
  config_ : DriverConfig
  done_ : Bool
  record_fp_ : Bool
  js_throttle_ : Int
  js_steering_ : Int
  config_item_ : Int
  ierr_k_ : α
  ierr_v_ : α
  last_u_esc_ : α
  brake_count_ : Int
  last_v_ : α
  last_w_ : α
  autodrive_ : Bool
  x_down_ : Bool
  y_down_ : Bool
  gyro_last_ : Vec3 α
  gyro_bias_ : Vec3 α
deriving DecidableEq, Repr

/-- The constructor `GPSDrive::GPSDrive` (lines 27-54), with the default-constructed
configuration `cfg`. -/
def GPSDrive.init {α : Type} [LinearOrderedField α] (cfg : DriverConfig) : GPSDrive α :=
  { config_ := cfg, done_ := false, record_fp_ := false, js_throttle_ := 0, js_steering_ := 0,
    config_item_ := 0, ierr_k_ := 0, ierr_v_ := 0, last_u_esc_ := 0, brake_count_ := 0,
    last_v_ := 0, last_w_ := 0, autodrive_ := false, x_down_ := false, y_down_ := false,
    gyro_last_ := Vec3.Zero, gyro_bias_ := Vec3.Zero }

/-- Method `GPSDrive::StartRecording` (lines 356-377); `fopen_ok` tells whether `fopen` succeeded. -/
def StartRecording {α : Type} (self : GPSDrive α) (fopen_ok : Bool) : GPSDrive α :=
  if self.record_fp_ = true then self else { self with record_fp_ := fopen_ok }

/-- Method `GPSDrive::StopRecording` (lines 379-394). -/
def StopRecording {α : Type} (self : GPSDrive α) : GPSDrive α :=
  if self.record_fp_ = false then self else { self with record_fp_ := false }

/-- Method `GPSDrive::Quit` (lines 409-412). -/
def Quit {α : Type} (self : GPSDrive α) : GPSDrive α :=
  StopRecording { self with done_ := true }

/-- Method `GPSDrive::OnDPadPress` (lines 255-288). -/
def OnDPadPress {α : Type} (hdr : ConfigHeader) (self : GPSDrive α) (direction : Char) :
    GPSDrive α :=
  let item := self.config_item_
  if direction = 'U' then
    let i := self.config_item_ - 1
    { self with config_item_ := if i < 0 then hdr.N_CONFIGITEMS - 1 else i }
  else if direction = 'D' then
    let i := self.config_item_ + 1
    { self with config_item_ := if i ≥ hdr.N_CONFIGITEMS then 0 else i }
  else if direction = 'L' then
    let delta : Int := if self.y_down_ then -100 else if self.x_down_ then -10 else -1
    { self with config_ := hdr.poke self.config_ item delta }
  else if direction = 'R' then
    let delta : Int := if self.y_down_ then 100 else if self.x_down_ then 10 else 1
    { self with config_ := hdr.poke self.config_ item delta }
  else self

/-- Method `GPSDrive::OnButtonPress` (lines 290-332).  `fopen_ok` is the outcome of `fopen` should a
recording start, `loaded` that of `config_.Load()` (`none` when it fails). -/
def OnButtonPress {α : Type} (self : GPSDrive α) (button : Char) (fopen_ok : Bool)
    (loaded : Option DriverConfig) : GPSDrive α :=
  if button = '+' then StartRecording self fopen_ok
  else if button = '-' then StopRecording self
  else if button = 'B' then
    match loaded with
    | some c => { self with config_ := c }
    | none => self
  else if button = 'A' then self
  else if button = 'R' then self
  else if button = 'X' then { self with x_down_ := true }
  else if button = 'Y' then { self with y_down_ := true }
  else if button = 'H' then { self with gyro_bias_ := self.gyro_last_ }
  else self

/-- Method `GPSDrive::OnButtonRelease` (lines 334-343). -/
def OnButtonRelease {α : Type} (self : GPSDrive α) (button : Char) : GPSDrive α :=
  if button = 'X' then { self with x_down_ := false }
  else if button = 'Y' then { self with y_down_ := false }
  else self

/-- Method `GPSDrive::OnAxisMove` (lines 345-354).  `value` is an `int16_t`; the members are taken
to be `int16_t` as their namesakes in drive.cc, so the `int` value `-value` wraps when
stored. -/
def OnAxisMove {α : Type} (self : GPSDrive α) (axis : Int) (value : Int) : GPSDrive α :=
  if axis = 1 then { self with js_throttle_ := Drive.wrap16 (-value) }
  else if axis = 2 then { self with js_steering_ := value }
  else self

/-- An input event with what the environment supplies to its handler. -/
inductive JsEvent where
  | DPadPress (direction : Char)
  | ButtonPress (button : Char) (fopen_ok : Bool) (loaded : Option DriverConfig)
  | ButtonRelease (button : Char)
  | AxisMove (axis : Int) (value : Int)
deriving DecidableEq, Repr

/-- Dispatching one event to its handler. -/
def JsEvent.deliver {α : Type} (hdr : ConfigHeader) (self : GPSDrive α) : JsEvent → GPSDrive α
  | .DPadPress d => OnDPadPress hdr self d
  | .ButtonPress b ok loaded => OnButtonPress self b ok loaded
  | .ButtonRelease b => OnButtonRelease self b
  | .AxisMove a v => OnAxisMove self a v

/-- The call `js_->ReadInput(this)` (lines 106-108): the pending events are delivered to the handlers,
oldest first; no events when `js_` is null. -/
def ReadInput {α : Type} (hdr : ConfigHeader) (self : GPSDrive α) (events : List JsEvent) :
    GPSDrive α :=
  events.foldl (JsEvent.deliver hdr) self

/-! ## The control cycle -/

/-- What the collaborators hand to one control cycle: the pending joystick events, the IMU
reading (accel, gyro; `none` when `ReadIMU` fails), the magnetometer reading, the radio
controls `controls[0]`, `controls[1]` (`none` when `GetRadioInput` fails), and the values
`ds`, `v` left by `GetWheelMotion`. -/
structure FrameInput (α : Type) where
  events : List JsEvent
  imu : Option (Vec3 α × Vec3 α)
  mag : Option (Vec3 α)
  radio_input : Option (α × α)
  ds : α
  v : α
deriving DecidableEq, Repr

/-- The local variables of `OnControlFrame` as they stand at line 182. -/
structure Locals (α : Type) where
  accel : Vec3 α
  gyro : Vec3 α
  mag : Vec3 α
  renorm : α
  MagN : α
  MagE : α
  radio_safe : Bool
  u_throttle : α
  u_steering : α
  u_s : α
  ds : α
  v : α
  w : α
deriving DecidableEq, Repr

/-- Lines 110-161 of `OnControlFrame`: sensor reads with their fallbacks, the operator
inputs, the clamped steering and the speed estimate.  `sqrtf` is the C library function; the
quotients by `renorm` are passed to the dashboard only. -/
def sense {α : Type} [LinearOrderedField α] (sqrtf : α → α) (self : GPSDrive α)
    (inp : FrameInput α) : GPSDrive α × Locals α :=
  let accel : Vec3 α := match inp.imu with
    | none => Vec3.Zero
    | some r => r.1
  let gyro : Vec3 α := match inp.imu with
    | none => Vec3.Zero
    | some r => r.2
  let self : GPSDrive α := match inp.imu with
    | none => self
    | some r =>
      { self with
        gyro_last_ :=
          Vec3.add (Vec3.smul (95 / 100) self.gyro_last_) (Vec3.smul (5 / 100) r.2) }
  let gyro := Vec3.sub gyro self.gyro_bias_
  let mag : Vec3 α := match inp.mag with
    | none => Vec3.Zero
    | some m => m
  let MagN := Vec3.dot mag MAGCALN
  let MagE := Vec3.dot mag MAGCALE
  let renorm := sqrtf (MagN * MagN + MagE * MagE)
  let MagN := MagN / renorm
  let MagE := MagE / renorm
  let radio_safe : Bool := match inp.radio_input with
    | some c => if c.1 > 5 / 10 then true else false
    | none => false
  let u_throttle : α := match inp.radio_input with
    | some c => c.1
    | none => (self.js_throttle_ : α) / 32768
  let u_steering : α := match inp.radio_input with
    | some c => c.2
    | none => (self.js_steering_ : α) / 32760
  let u_s := clamp (u_steering + (self.config_.servo_offset : α) * (1 / 100))
    ((self.config_.servo_min : α) * (1 / 100)) ((self.config_.servo_max : α) * (1 / 100))
  let ds := inp.ds
  let v := inp.v
  let w := gyro.z
  let v := if self.brake_count_ > 0 then self.last_v_ * (95 / 100) else v
  let self : GPSDrive α :=
    if self.brake_count_ > 0 then { self with brake_count_ := self.brake_count_ - 1 } else self
  (self, { accel := accel, gyro := gyro, mag := mag, renorm := renorm, MagN := MagN,
           MagE := MagE, radio_safe := radio_safe, u_throttle := u_throttle,
           u_steering := u_steering, u_s := u_s, ds := ds, v := v, w := w })

/-- The target speed of the speed controller (line 200). -/
def target_v {α : Type} [LinearOrderedField α] (self : GPSDrive α) (l : Locals α) : α :=
  (self.config_.speed_limit : α) * (1 / 100) * clamp l.u_throttle 0 1

/-- The speed error (line 203). -/
def verr {α : Type} [LinearOrderedField α] (self : GPSDrive α) (l : Locals α) : α :=
  target_v self l - l.v

/-- The unclamped proportional+integral output (lines 201-204). -/
def u_pi {α : Type} [LinearOrderedField α] (self : GPSDrive α) (l : Locals α) (dt : α) : α :=
  let vgain : α := 1 / 100 * (self.config_.motor_gain : α)
  let kI : α := 1 / 100 * (self.config_.motor_kI : α)
  vgain * verr self l + kI * (self.ierr_v_ + verr self l * dt)

/-- What one control cycle leaves behind: the members afterwards, the calls
`car->SetControls(led, throttle, steering)` in order, and the return value. -/
structure FrameResult (α : Type) where
  self : GPSDrive α
  SetControls : List (Nat × α × α)
  ret : Bool
deriving DecidableEq, Repr

/-- Lines 182-222 of `OnControlFrame`: manual pass-through, runaway protection, speed
control. -/
def control {α : Type} [LinearOrderedField α] (self : GPSDrive α) (l : Locals α) (dt : α) :
    FrameResult α :=
  if self.autodrive_ = false ∧ l.u_throttle ≤ 5 / 100 then
    { SetControls := [(2, l.u_throttle, l.u_s)],
      self := { self with
        brake_count_ := if l.u_throttle < -(5 / 100) then 5 else self.brake_count_,
        ierr_v_ := 0, ierr_k_ := 0, last_v_ := l.v, last_w_ := l.w,
        last_u_esc_ := l.u_throttle },
      ret := !self.done_ }
  else if self.autodrive_ = true ∧ l.radio_safe = false then
    { SetControls := [(2, 0, 0)], self := self, ret := !self.done_ }
  else
    let u := u_pi self l dt
    let ierr_v := if u > -1 ∧ u < 1 then self.ierr_v_ + verr self l * dt else self.ierr_v_
    let u := if target_v self l < l.v * (9 / 10) then clamp u (-1) 1 else clamp u 0 1
    { SetControls := [(1, u, l.u_s)],
      self := { self with
        ierr_v_ := ierr_v, last_v_ := l.v, last_w_ := l.w, last_u_esc_ := u,
        brake_count_ := if u < -(5 / 100) then 5 else self.brake_count_ },
      ret := !self.done_ }

/-- Method `GPSDrive::OnControlFrame` (lines 105-222).  The log line and the dashboard update
(lines 163-180) only pass locals on to the log file and the display. -/
def OnControlFrame {α : Type} [LinearOrderedField α] (hdr : ConfigHeader) (sqrtf : α → α)
    (self : GPSDrive α) (inp : FrameInput α) (dt : α) : FrameResult α :=
  let self := ReadInput hdr self inp.events
  let r := sense sqrtf self inp
  control r.1 r.2 dt

/-- The members and the locals with which a cycle reaches line 182. -/
def atBranch {α : Type} [LinearOrderedField α] (hdr : ConfigHeader) (sqrtf : α → α)
    (self : GPSDrive α) (inp : FrameInput α) : GPSDrive α × Locals α :=
  sense sqrtf (ReadInput hdr self inp.events) inp

/-- An operation on a `GPSDrive` object: a control cycle or `Quit`. -/
inductive Op (α : Type) where
  | Frame (inp : FrameInput α) (dt : α)
  | Quit

/-- Performing one operation. -/
def Op.step {α : Type} [LinearOrderedField α] (hdr : ConfigHeader) (sqrtf : α → α)
    (self : GPSDrive α) : Op α → GPSDrive α
  | .Frame inp dt => (OnControlFrame hdr sqrtf self inp dt).self
  | .Quit => Gps.Quit self

/-- Performing a sequence of operations, oldest first. -/
def runOps {α : Type} [LinearOrderedField α] (hdr : ConfigHeader) (sqrtf : α → α)
    (self : GPSDrive α) (ops : List (Op α)) : GPSDrive α :=
  ops.foldl (Op.step hdr sqrtf) self

/-- Whether `Quit` occurs in a sequence of operations. -/
def quitCalled {α : Type} : List (Op α) → Bool
  | [] => false
  | .Quit :: _ => true
  | .Frame _ _ :: ops => quitCalled ops

/-- The members that input handling leaves alone: `b` agrees with `a` on them. -/
structure SameCore {α : Type} (a b : GPSDrive α) : Prop where
  done_ : b.done_ = a.done_
  autodrive_ : b.autodrive_ = a.autodrive_
  ierr_v_ : b.ierr_v_ = a.ierr_v_
  ierr_k_ : b.ierr_k_ = a.ierr_k_
  gyro_last_ : b.gyro_last_ = a.gyro_last_

/-! ## Example inputs -/

/-- A stand-in for `gpsdrive/config.h` in the examples; no D-pad event is pending there, so
it is never consulted. -/
def exHeader : ConfigHeader := ⟨8, fun c _ _ => c⟩

/-- The square root at the only argument the examples give it: the magnetometer read fails
there, the reading is the zero vector and `sqrtf(0) = 0`. -/
def exSqrt : ℚ → ℚ := fun _ => 0

/-- A configuration: speed limit 1.00, motor gain 1.00, no integral gain, no steering trim,
steering range `[-1.00, 1.00]`. -/
def exConfig : DriverConfig :=
  { speed_limit := 100, motor_gain := 100, motor_kI := 0, servo_offset := 0,
    servo_min := -100, servo_max := 100 }

/-- The same configuration with the steering range `[0.10, 0.20]`. -/
def exConfigNarrow : DriverConfig :=
  { speed_limit := 100, motor_gain := 100, motor_kI := 0, servo_offset := 0,
    servo_min := 10, servo_max := 20 }

/-- A frame with no pending events, failed IMU and magnetometer reads and the radio controls
`throttle`, `steering`; the wheels report the speed `v`. -/
def exFrame (throttle steering v : ℚ) : FrameInput ℚ :=
  { events := [], imu := none, mag := none, radio_input := some (throttle, steering),
    ds := 0, v := v }

/-- A frame in which every read fails; the wheels report the speed `v`. -/
def exFrameNoRadio (v : ℚ) : FrameInput ℚ :=
  { events := [], imu := none, mag := none, radio_input := none, ds := 0, v := v }

/-- The configuration `exConfig` with motor gain 10.00. -/
def exConfigStiff : DriverConfig :=
  { speed_limit := 100, motor_gain := 1000, motor_kI := 0, servo_offset := 0,
    servo_min := -100, servo_max := 100 }

/-- A frame in which every read fails and the joystick reports the throttle stick at
`value`; the wheels report speed 0. -/
def exFrameStick (value : Int) : FrameInput ℚ :=
  { events := [JsEvent.AxisMove 1 value], imu := none, mag := none, radio_input := none,
    ds := 0, v := 0 }

end Gps

namespace Drive

/-! ## The record layout -/

theorem memcpy_length (dst src : List Byte) (off n : Nat)
    (h1 : off + n ≤ dst.length) (h2 : n ≤ src.length) :
    (memcpy dst off src n).length = dst.length := by
  simp [memcpy]; omega

theorem memcpy_getElem? (dst src : List Byte) (off n i : Nat)
    (h1 : off + n ≤ dst.length) (h2 : n ≤ src.length) :
    (memcpy dst off src n)[i]? =
      if off ≤ i ∧ i < off + n then src[i - off]? else dst[i]? := by
  unfold memcpy
  have h3 : (dst.take off).length = off := by simp; omega
  have h4 : (src.take n).length = n := by simp; omega
  by_cases c1 : i < off
  · rw [List.append_assoc, List.getElem?_append_left (by omega)]
    rw [List.getElem?_take_of_lt c1, if_neg (by omega)]
  · by_cases c2 : i < off + n
    · rw [List.getElem?_append_left (by simp; omega), List.getElem?_append_right (by omega)]
      rw [h3, List.getElem?_take_of_lt (by omega), if_pos (by omega)]
    · rw [List.getElem?_append_right (by simp; omega), List.length_append, h3, h4,
        List.getElem?_drop, if_neg (by omega)]
      congr 1; omega

theorem slice_getElem? (b : List Byte) (off n i : Nat) :
    (slice b off n)[i]? = if i < n then b[off + i]? else none := by
  unfold slice
  by_cases c : i < n
  · rw [List.getElem?_take_of_lt c, List.getElem?_drop, if_pos c]
  · rw [if_neg c]
    apply List.getElem?_eq_none
    simp; omega

theorem slice_add (b : List Byte) (off m n : Nat) :
    slice b off (m + n) = slice b off m ++ slice b (off + m) n := by
  unfold slice
  rw [List.take_add, List.drop_drop]

theorem slice_memcpy_same (dst src : List Byte) (off n : Nat)
    (h1 : off + n ≤ dst.length) (h2 : n = src.length) :
    slice (memcpy dst off src n) off n = src := by
  apply List.ext_getElem?
  intro i
  rw [slice_getElem?, memcpy_getElem? _ _ _ _ _ h1 (by omega)]
  by_cases c : i < n
  · rw [if_pos c, if_pos (by omega)]; congr 1; omega
  · rw [if_neg c]; symm; apply List.getElem?_eq_none; omega

theorem slice_memcpy_other (dst src : List Byte) (off n o m : Nat)
    (h1 : off + n ≤ dst.length) (h2 : n ≤ src.length)
    (h : o + m ≤ off ∨ off + n ≤ o) :
    slice (memcpy dst off src n) o m = slice dst o m := by
  apply List.ext_getElem?
  intro i
  rw [slice_getElem?, slice_getElem?, memcpy_getElem? _ _ _ _ _ h1 h2]
  by_cases c : i < m
  · rw [if_pos c, if_pos c, if_neg (by omega)]
  · rw [if_neg c, if_neg c]

theorem u32_of_le_le32 (n : Nat) (h : n < 4294967296) : u32_of_le (le32 n) = n := by
  simp [u32_of_le, le32]; omega

theorem Laid.step {b : List Byte} {N hi : Nat} {fs : List (Nat × List Byte)}
    (h : Laid b N hi fs) (off : Nat) (src : List Byte) (n : Nat)
    (hn : n = src.length) (hoff : hi ≤ off) (hN : off + n ≤ N) :
    Laid (memcpy b off src n) N (off + n) ((off, src) :: fs) := by
  have hl : b.length = N := h.1
  refine ⟨by rw [memcpy_length _ _ _ _ (by omega) (by omega)]; exact hl, ?_⟩
  intro f hf
  rcases List.mem_cons.mp hf with rfl | hf
  · refine ⟨by simp only []; omega, ?_⟩
    simp only []
    rw [← hn]
    exact slice_memcpy_same _ _ _ _ (by omega) hn
  · obtain ⟨h1, h2⟩ := h.2 f hf
    refine ⟨by omega, ?_⟩
    rw [slice_memcpy_other _ _ _ _ _ _ (by omega) (by omega) (Or.inl (by omega))]
    exact h2

theorem flushbuf_laid (g : Globals) (t : Timeval) (buf : List Byte) :
    Laid (flushbuf g t buf (55 + buf.length)) (55 + buf.length) (55 + buf.length)
      [(55, buf), (47, g.wheel_dt_.bytes), (39, g.wheel_pos_.bytes), (38, [g.servo_pos_ % 256]),
       (34, g.gyro_.z.bytes), (30, g.gyro_.y.bytes), (26, g.gyro_.x.bytes),
       (22, g.accel_.z.bytes), (18, g.accel_.y.bytes), (14, g.accel_.x.bytes),
       (13, [int8_byte g.steering_]), (12, [int8_byte g.throttle_]),
       (8, le32 t.tv_usec), (4, le32 t.tv_sec), (0, le32 (55 + buf.length))] := by
  have h0 : Laid (List.replicate (55 + buf.length) (0 : Byte)) (55 + buf.length) 0 [] :=
    ⟨by simp, by simp⟩
  have h1 := h0.step 0 (le32 (55 + buf.length)) 4 rfl (by omega) (by omega)
  have h2 := h1.step 4 (le32 t.tv_sec) 4 rfl (by omega) (by omega)
  have h3 := h2.step 8 (le32 t.tv_usec) 4 rfl (by omega) (by omega)
  have h4 := h3.step 12 [int8_byte g.throttle_] 1 rfl (by omega) (by omega)
  have h5 := h4.step 13 [int8_byte g.steering_] 1 rfl (by omega) (by omega)
  have h6 := h5.step 14 g.accel_.x.bytes 4 rfl (by omega) (by omega)
  have h7 := h6.step (14+4) g.accel_.y.bytes 4 rfl (by omega) (by omega)
  have h8 := h7.step (14+8) g.accel_.z.bytes 4 rfl (by omega) (by omega)
  have h9 := h8.step 26 g.gyro_.x.bytes 4 rfl (by omega) (by omega)
  have h10 := h9.step (26+4) g.gyro_.y.bytes 4 rfl (by omega) (by omega)
  have h11 := h10.step (26+8) g.gyro_.z.bytes 4 rfl (by omega) (by omega)
  have h12 := h11.step 38 [g.servo_pos_ % 256] 1 rfl (by omega) (by omega)
  have h13 := h12.step 39 g.wheel_pos_.bytes (2*4) rfl (by omega) (by omega)
  have h14 := h13.step 47 g.wheel_dt_.bytes (2*4) rfl (by omega) (by omega)
  exact h14.step 55 buf buf.length rfl (by omega) (by omega)

theorem flushbuf_layout (g : Globals) (t : Timeval) (buf : List Byte)
    (hlen : 55 + buf.length < 4294967296) :
    RecordLayout (flushbuf g t buf (55 + buf.length)) g t buf := by
  have h := flushbuf_laid g t buf
  have hs : ∀ f ∈ _, _ := h.2
  simp only [List.forall_mem_cons] at hs
  obtain ⟨f15, f14, f13, f12, f11, f10, f9, f8, f7, f6, f5, f4, f3, f2, f1, -⟩ := hs
  refine ⟨h.1, ?_, f2.2, f3.2, f4.2, f5.2, ?_, ?_, f12.2, f13.2, f14.2, f15.2⟩
  · have e : slice (flushbuf g t buf (55 + buf.length)) 0 4 = le32 (55 + buf.length) := f1.2
    rw [e, u32_of_le_le32 _ hlen]
  · have e1 : slice (flushbuf g t buf (55 + buf.length)) 14 4 = g.accel_.x.bytes := f6.2
    have e2 : slice (flushbuf g t buf (55 + buf.length)) 18 4 = g.accel_.y.bytes := f7.2
    have e3 : slice (flushbuf g t buf (55 + buf.length)) 22 4 = g.accel_.z.bytes := f8.2
    rw [show (12 : Nat) = 4 + 4 + 4 from rfl, slice_add, slice_add, e1, e2, e3]
  · have e1 : slice (flushbuf g t buf (55 + buf.length)) 26 4 = g.gyro_.x.bytes := f9.2
    have e2 : slice (flushbuf g t buf (55 + buf.length)) 30 4 = g.gyro_.y.bytes := f10.2
    have e3 : slice (flushbuf g t buf (55 + buf.length)) 34 4 = g.gyro_.z.bytes := f11.2
    rw [show (12 : Nat) = 4 + 4 + 4 from rfl, slice_add, slice_add, e1, e2, e3]

/-- C1. Every frame of length `L` (with `55 + L < 2^32`) that `Driver::OnFrame` records is
handed to the flush thread as one entry for the open descriptor whose buffer has length
`55 + L`, whose first four bytes hold the `u32` value `55 + L`, and whose fields sit at
consecutive offsets: seconds at 4..7, microseconds at 8..11, throttle at 12, steering at 13,
accel at 14..25, gyro at 26..37, servo position at 38, wheel positions at 39..46, wheel
periods at 47..54 and the unchanged frame bytes from 55 on. -/
theorem OnFrame_record_layout (self : Driver) (q : Submitted) (g : Globals) (t : Timeval)
    (buf : List Byte) (hrec : IsRecording self = true)
    (hskip : self.frame_ + 1 > self.frameskip_) (hlen : 55 + buf.length < 2 ^ 32) :
    ∃ b : List Byte,
      (OnFrame self q g t buf).2 =
        q ++ [⟨self.output_fd_, some b, ((55 + buf.length : Nat) : Int)⟩] ∧
      RecordLayout b g t buf := by
  have hl : 55 + buf.length < 4294967296 := by norm_num at hlen; exact hlen
  refine ⟨flushbuf g t buf (55 + buf.length), ?_, flushbuf_layout g t buf hl⟩
  have hrec2 : IsRecording { self with frame_ := self.frame_ + 1 } = true := hrec
  simp only [OnFrame, hrec2, true_and, gt_iff_lt, AddEntry]
  rw [if_pos (by exact hskip), Nat.mod_eq_of_lt hl]

/-- A recorded three-byte frame: the hypotheses of `OnFrame_record_layout` hold and the
record has the stated layout. -/
theorem OnFrame_record_layout_witness :
    IsRecording { Driver.init [] with output_fd_ := 3 } = true ∧
    ∃ b : List Byte,
      (OnFrame { Driver.init [] with output_fd_ := 3 } [] exGlobals ⟨1700000000, 250000⟩
          [170, 187, 204]).2 =
        [] ++ [⟨3, some b, ((55 + [170, 187, 204].length : Nat) : Int)⟩] ∧
      RecordLayout b exGlobals ⟨1700000000, 250000⟩ [170, 187, 204] :=
  ⟨by decide, OnFrame_record_layout _ _ _ _ _ (by decide) (by decide) (by decide)⟩

/-! ## The recording protocol -/

theorem step_driver_indep (self : Driver) (q : Submitted) (c : Call) :
    (Call.step (self, q) c).1 = (Call.step (self, []) c).1 := by
  cases c with
  | StartRecording fd fs => rfl
  | OnFrame g t buf =>
    simp only [Call.step, OnFrame]
    split_ifs <;> rfl
  | StopRecording =>
    simp only [Call.step, StopRecording]
    split_ifs <;> rfl

theorem entriesFor_append (f : Int) (q r : Submitted) :
    entriesFor f (q ++ r) = entriesFor f q ++ entriesFor f r := by
  simp [entriesFor]

theorem entriesFor_single (f : Int) (e : Entry) :
    entriesFor f [e] = if e.fd = f then [e] else [] := by
  simp only [entriesFor, List.filter]
  by_cases h : e.fd = f <;> simp [h]

theorem ProtocolInv.start {self : Driver} {opened : List Int} {q : Submitted}
    (h : ProtocolInv self opened q) (fd frameskip : Int)
    (hrec : IsRecording self = false) (hfd : fd = -1 ∨ fd ∉ opened) :
    ProtocolInv (StartRecording self fd frameskip).1
      (if fd = -1 then opened else fd :: opened) q := by
  obtain ⟨h1, h2, h3⟩ := h
  have hout : self.output_fd_ = -1 := by simpa [IsRecording] using hrec
  have hs : (StartRecording self fd frameskip).1.output_fd_ = fd := by
    simp only [StartRecording]; split_ifs <;> rfl
  by_cases c : fd = -1
  · rw [if_pos c]
    refine ⟨h1, fun hne => absurd (hs.trans c) hne, fun f => ?_⟩
    obtain ⟨ds, e1, e2, e3⟩ := h3 f
    refine ⟨ds, ?_, e2, e3⟩
    rw [e1, hs, c, hout]
  · rw [if_neg c]
    have hfresh : fd ∉ opened := hfd.resolve_left c
    refine ⟨?_, ?_, fun f => ?_⟩
    · intro hm
      rcases List.mem_cons.mp hm with hm | hm
      · exact c hm.symm
      · exact h1 hm
    · intro _; rw [hs]; exact List.mem_cons_self _ _
    · obtain ⟨ds, e1, e2, e3⟩ := h3 f
      refine ⟨ds, ?_, e2, ?_⟩
      · rw [e1, hs, hout]
        by_cases hf : f = fd
        · subst hf
          rw [if_neg (fun hh => hfresh hh.1), if_neg (fun hh => hh.2 rfl)]
        · by_cases hm : f ∈ opened
          · have hne : f ≠ -1 := fun hh => h1 (hh ▸ hm)
            rw [if_pos ⟨hm, hne⟩, if_pos ⟨List.mem_cons_of_mem _ hm, hf⟩]
          · rw [if_neg (fun hh => hm hh.1), if_neg]
            intro hh
            rcases List.mem_cons.mp hh.1 with hh1 | hh1
            · exact hf hh1
            · exact hm hh1
      · intro hn
        exact e3 (fun hm => hn (List.mem_cons_of_mem _ hm))

theorem ProtocolInv.frame {self : Driver} {opened : List Int} {q : Submitted}
    (h : ProtocolInv self opened q) (g : Globals) (t : Timeval) (buf : List Byte) :
    ProtocolInv (OnFrame self q g t buf).1 opened (OnFrame self q g t buf).2 := by
  obtain ⟨h1, h2, h3⟩ := h
  simp only [OnFrame]
  split_ifs with hc
  · have hout : self.output_fd_ ≠ -1 := by
      have := hc.1
      simpa [IsRecording] using this
    refine ⟨h1, h2, fun f => ?_⟩
    obtain ⟨ds, e1, e2, e3⟩ := h3 f
    simp only [AddEntry]
    rw [entriesFor_append, entriesFor_single, e1]
    by_cases hf : self.output_fd_ = f
    · subst hf
      rw [if_pos rfl, if_neg (fun hh => hh.2 rfl)]
      refine ⟨ds ++ [⟨self.output_fd_, some (flushbuf g t buf ((55 + buf.length) % 4294967296)),
        (((55 + buf.length) % 4294967296 : Nat) : Int)⟩], ?_, ?_, ?_⟩
      · rw [List.append_nil, List.append_nil]
      · intro e he
        rcases List.mem_append.mp he with he | he
        · exact e2 e he
        · rw [List.mem_singleton.mp he]; rfl
      · intro hn; exact absurd (h2 hout) hn
    · refine ⟨ds, ?_, e2, e3⟩
      rw [if_neg hf, List.append_nil]
  · exact ⟨h1, h2, h3⟩

theorem ProtocolInv.stop {self : Driver} {opened : List Int} {q : Submitted}
    (h : ProtocolInv self opened q) :
    ProtocolInv (StopRecording self q).1 opened (StopRecording self q).2 := by
  obtain ⟨h1, h2, h3⟩ := h
  simp only [StopRecording]
  split_ifs with hc
  · exact ⟨h1, h2, h3⟩
  · refine ⟨h1, fun hh => absurd rfl hh, fun f => ?_⟩
    obtain ⟨ds, e1, e2, e3⟩ := h3 f
    simp only [AddEntry]
    rw [entriesFor_append, entriesFor_single, e1]
    refine ⟨ds, ?_, e2, e3⟩
    by_cases hf : self.output_fd_ = f
    · subst hf
      have hm : self.output_fd_ ∈ opened := h2 hc
      rw [if_pos rfl, if_neg (fun hh => hh.2 rfl), if_pos ⟨hm, hc⟩]
      simp [sentinel]
    · rw [if_neg hf, List.append_nil]
      by_cases hm : f ∈ opened
      · have hne : f ≠ -1 := fun hh => h1 (hh ▸ hm)
        rw [if_pos ⟨hm, fun hh => hf hh.symm⟩, if_pos ⟨hm, hne⟩]
      · rw [if_neg (fun hh => hm hh.1), if_neg (fun hh => hm hh.1)]

theorem ProtocolInv.run (cs : List Call) :
    ∀ (self : Driver) (opened : List Int) (q : Submitted),
      ProtocolInv self opened q → admissible self opened cs = true →
      ProtocolInv (Call.run (self, q) cs).1 (cs.foldl Call.track opened)
        (Call.run (self, q) cs).2 := by
  induction cs with
  | nil => intro self opened q h _; exact h
  | cons c cs ih =>
    intro self opened q h hadm
    simp only [admissible, Bool.and_eq_true] at hadm
    obtain ⟨hc, hrest⟩ := hadm
    have hstep : ProtocolInv (Call.step (self, q) c).1 (Call.track opened c)
        (Call.step (self, q) c).2 := by
      cases c with
      | StartRecording fd fs =>
        have hc2 : IsRecording self = false ∧ (fd = -1 ∨ fd ∉ opened) := by
          simpa using hc
        exact h.start fd fs hc2.1 hc2.2
      | OnFrame g t buf => exact h.frame g t buf
      | StopRecording => exact h.stop
    rw [← step_driver_indep self q c] at hrest
    exact ih _ _ _ hstep hrest

theorem ProtocolInv.init (cfg : DriverConfig) : ProtocolInv (Driver.init cfg) [] [] := by
  refine ⟨by simp, fun h => absurd rfl h, fun f => ⟨[], ?_, by simp, fun _ => rfl⟩⟩
  simp [entriesFor]

/-- C2. For every sequence of `StartRecording` (called only while not recording, each
success yielding a fresh descriptor), `OnFrame` and `StopRecording` calls on a freshly
constructed `Driver`: at every moment the entries submitted for a descriptor are data
records, followed by the close sentinel (null buffer, length `-1`) as last entry exactly when
that descriptor was opened and is no longer being recorded to; once the `Driver` is destroyed
every opened descriptor has its data records followed by exactly one sentinel; descriptors
never opened receive nothing; and `StopRecording` while not recording changes nothing. -/
theorem recording_protocol (cfg : DriverConfig) (cs : List Call)
    (h : admissible (Driver.init cfg) [] cs = true) :
    (∀ f : Int, ∃ ds : List Entry,
      entriesFor f (Call.run (Driver.init cfg, []) cs).2 =
        ds ++ (if f ∈ openedFds cs ∧ f ≠ (Call.run (Driver.init cfg, []) cs).1.output_fd_
          then [sentinel f] else []) ∧
      ∀ e ∈ ds, e.isData = true) ∧
    (∀ f ∈ openedFds cs, ∃ ds : List Entry,
      entriesFor f (Driver.destroy (Call.run (Driver.init cfg, []) cs).1
          (Call.run (Driver.init cfg, []) cs).2).2 = ds ++ [sentinel f] ∧
      ∀ e ∈ ds, e.isData = true) ∧
    (∀ f : Int, f ∉ openedFds cs → entriesFor f (Call.run (Driver.init cfg, []) cs).2 = []) ∧
    (∀ (self : Driver) (q : Submitted), IsRecording self = false →
      StopRecording self q = (self, q)) := by
  have inv := ProtocolInv.run cs _ _ _ (ProtocolInv.init cfg) h
  refine ⟨fun f => ?_, fun f hf => ?_, fun f hf => ?_, fun self q hrec => ?_⟩
  · obtain ⟨ds, e1, e2, _⟩ := inv.2.2 f
    exact ⟨ds, e1, e2⟩
  · have inv2 := inv.stop
    obtain ⟨ds, e1, e2, _⟩ := inv2.2.2 f
    refine ⟨ds, ?_, e2⟩
    have hne : f ≠ -1 := fun hh => inv.1 (hh ▸ hf)
    have hout : (StopRecording (Call.run (Driver.init cfg, []) cs).1
        (Call.run (Driver.init cfg, []) cs).2).1.output_fd_ = -1 := by
      simp only [StopRecording]; split_ifs with hc
      · exact hc
      · rfl
    rw [hout, if_pos ⟨hf, hne⟩] at e1
    exact e1
  · obtain ⟨ds, e1, _, e3⟩ := inv.2.2 f
    rw [e1, e3 hf, if_neg (fun hh => hf hh.1)]
    rfl
  · have hout : self.output_fd_ = -1 := by simpa [IsRecording] using hrec
    simp [StopRecording, hout]

/-- The example sequence obeys the calling discipline, and after destruction descriptor 3
has its data records followed by exactly one sentinel. -/
theorem recording_protocol_witness :
    admissible (Driver.init []) [] exCalls = true ∧
    ∃ ds : List Entry,
      entriesFor 3 (Driver.destroy (Call.run (Driver.init [], []) exCalls).1
        (Call.run (Driver.init [], []) exCalls).2).2 = ds ++ [sentinel 3] ∧
      ∀ e ∈ ds, e.isData = true :=
  have hadm : admissible (Driver.init []) [] exCalls = true := by decide
  ⟨hadm, (recording_protocol [] _ hadm).2.1 3 (by decide)⟩

/-! ## Engaging and disengaging autodrive -/

theorem StartRecording_autodrive (self : Driver) (fd frameskip : Int) :
    (StartRecording self fd frameskip).1.autodrive_ = self.autodrive_ := by
  simp only [StartRecording]; split_ifs <;> rfl

theorem StopRecording_autodrive (self : Driver) (q : Submitted) :
    (StopRecording self q).1.autodrive_ = self.autodrive_ := by
  simp only [StopRecording]; split_ifs <;> rfl

theorem OnButtonPress_L (w : World) (fd : Int) (loaded : Option DriverConfig) :
    (OnButtonPress w 'L' fd loaded).driver_.autodrive_ = true := by
  have h1 : ¬ ('L' = '+') := by decide
  have h2 : ¬ ('L' = '-') := by decide
  have h3 : ¬ ('L' = 'H') := by decide
  simp only [OnButtonPress, if_neg h1, if_neg h2, if_neg h3, if_true]
  split_ifs with h
  · rfl
  · simpa using h

theorem OnButtonPress_other (w : World) (b : Char) (fd : Int) (loaded : Option DriverConfig)
    (hb : b ≠ 'L') : (OnButtonPress w b fd loaded).driver_.autodrive_ = w.driver_.autodrive_ := by
  simp only [OnButtonPress, if_neg hb]
  split_ifs
  all_goals first
    | rfl
    | exact StartRecording_autodrive _ _ _
    | exact StopRecording_autodrive _ _
    | (cases loaded <;> rfl)

theorem OnButtonRelease_L (w : World) :
    (OnButtonRelease w 'L').driver_.autodrive_ = false := by
  simp only [OnButtonRelease, if_true]
  split_ifs with h
  · rfl
  · simpa using h

theorem OnButtonRelease_other (w : World) (b : Char) (hb : b ≠ 'L') :
    (OnButtonRelease w b).driver_.autodrive_ = w.driver_.autodrive_ := by
  simp only [OnButtonRelease, if_neg hb]
  split_ifs <;> rfl

theorem OnDPadPress_autodrive (w : World) (d : Char) :
    (OnDPadPress w d).driver_.autodrive_ = w.driver_.autodrive_ := by
  simp only [OnDPadPress]
  split_ifs <;> rfl

theorem OnAxisMove_autodrive (w : World) (a v : Int) :
    (OnAxisMove w a v).driver_.autodrive_ = w.driver_.autodrive_ := by
  simp only [OnAxisMove]
  split_ifs <;> rfl

theorem deliverAll_autodrive (evs : List JsEvent) :
    ∀ w : World, (deliverAll w evs).driver_.autodrive_ =
      (lastL evs).getD w.driver_.autodrive_ := by
  induction evs with
  | nil => intro w; rfl
  | cons e evs ih =>
    intro w
    have hstep : deliverAll w (e :: evs) = deliverAll (JsEvent.deliver w e) evs := rfl
    rw [hstep, ih]
    simp only [lastL]
    cases hl : lastL evs with
    | some b => rfl
    | none =>
      simp only [Option.getD_none]
      cases e with
      | DPadPress d => exact OnDPadPress_autodrive w d
      | ButtonPress b fd loaded =>
        by_cases hb : b = 'L'
        · subst hb; simpa using OnButtonPress_L w fd loaded
        · simpa [hb] using OnButtonPress_other w b fd loaded hb
      | ButtonRelease b =>
        by_cases hb : b = 'L'
        · subst hb; simpa using OnButtonRelease_L w
        · simpa [hb] using OnButtonRelease_other w b hb
      | AxisMove a v => exact OnAxisMove_autodrive w a v

/-- C10. For every sequence of events delivered to `DriverInputReceiver`, starting with
autodrive disengaged, `autodrive_` is true afterwards if and only if the most recent `'L'`
button event of the sequence was a press: an `'L'` press engages it, an `'L'` release
disengages it, and no other button, D-pad or axis event changes it. -/
theorem autodrive_iff_last_L_pressed (w : World) (evs : List JsEvent)
    (h : w.driver_.autodrive_ = false) :
    ((deliverAll w evs).driver_.autodrive_ = true ↔ lastL evs = some true) ∧
    (∀ (v : World) (fd : Int) (loaded : Option DriverConfig),
      (OnButtonPress v 'L' fd loaded).driver_.autodrive_ = true) ∧
    (∀ v : World, (OnButtonRelease v 'L').driver_.autodrive_ = false) ∧
    (∀ (v : World) (b : Char) (fd : Int) (loaded : Option DriverConfig), b ≠ 'L' →
      (OnButtonPress v b fd loaded).driver_.autodrive_ = v.driver_.autodrive_) ∧
    (∀ (v : World) (b : Char), b ≠ 'L' →
      (OnButtonRelease v b).driver_.autodrive_ = v.driver_.autodrive_) ∧
    (∀ (v : World) (d : Char), (OnDPadPress v d).driver_.autodrive_ = v.driver_.autodrive_) ∧
    (∀ (v : World) (a x : Int), (OnAxisMove v a x).driver_.autodrive_ = v.driver_.autodrive_) := by
  refine ⟨?_, OnButtonPress_L, OnButtonRelease_L, OnButtonPress_other, OnButtonRelease_other,
    OnDPadPress_autodrive, OnAxisMove_autodrive⟩
  rw [deliverAll_autodrive, h]
  cases lastL evs with
  | none => simp
  | some b => simp

/-- Press `'L'`, press `'X'`, move the D-pad left, release `'L'`, press `'L'` again: the last
`'L'` event is a press and autodrive is engaged. -/
theorem autodrive_iff_last_L_pressed_witness :
    (⟨Driver.init [0, 0, 0, 0, 0, 0, 0, 0], ⟨0, false, false⟩, [], 0, 0⟩ : World).driver_.autodrive_
      = false ∧
    ((deliverAll ⟨Driver.init [0, 0, 0, 0, 0, 0, 0, 0], ⟨0, false, false⟩, [], 0, 0⟩
        [.ButtonPress 'L' 3 none, .ButtonPress 'X' 3 none, .DPadPress 'L', .ButtonRelease 'L',
         .ButtonPress 'L' 3 none]).driver_.autodrive_ = true ↔
      lastL [.ButtonPress 'L' 3 none, .ButtonPress 'X' 3 none, .DPadPress 'L',
        .ButtonRelease 'L', .ButtonPress 'L' 3 none] = some true) :=
  ⟨rfl, (autodrive_iff_last_L_pressed _ _ rfl).1⟩

/-! ## Odometry gating of the localizer -/

theorem sub16_self (a : Nat) : sub16 a a = 0 := by
  unfold sub16; omega

theorem sub16_eq_zero_iff (a b : Nat) (ha : a < 65536) (hb : b < 65536) :
    sub16 a b = 0 ↔ a = b := by
  unfold sub16; omega

theorem sub16_eq (a b : Nat) (ha : a < 65536) (hb : b < 65536) :
    sub16 a b = (a + 65536 - b) % 65536 := by
  unfold sub16; omega

theorem U16x4.valid_iff (w : U16x4) :
    w.valid = true ↔ w.w0 < 65536 ∧ w.w1 < 65536 ∧ w.w2 < 65536 ∧ w.w3 < 65536 := by
  simp [U16x4.valid, and_assoc]

theorem quarter_pos_iff (n : Nat) : (25 / 100 * (n : ℚ) > 0) ↔ n ≠ 0 := by
  constructor
  · intro h hn
    rw [hn] at h
    norm_num at h
  · intro h
    have : (0 : ℚ) < (n : ℚ) := by exact_mod_cast Nat.pos_of_ne_zero h
    positivity

theorem countP_updates (n : Nat) (f : Nat → LocalizerCall)
    (hf : ∀ i, (f i).isPredict = false) :
    ((List.range n).map f).countP LocalizerCall.isPredict = 0 ∧
    ((List.range n).map f).countP (fun c => !c.isPredict) = n := by
  constructor
  · rw [List.countP_eq_zero]
    intro c hc
    obtain ⟨i, _, rfl⟩ := List.mem_map.mp hc
    simp [hf i]
  · have h : ((List.range n).map f).countP (fun c => !c.isPredict) =
        ((List.range n).map f).length := by
      rw [List.countP_eq_length]
      intro c hc
      obtain ⟨i, _, rfl⟩ := List.mem_map.mp hc
      simp [hf i]
    rw [h]; simp

/-- The calls one frame of `OnFrame_localize` makes, from the members it starts with: with
16-bit encoder counts and `ncones >= 0`, `Predict` is invoked exactly once if and only if
`firstframe_` is false and one of the four counts differs from `last_encoders_`; the calls
are then `Predict(ds, gyro_[2], dt)` followed by `ncones` calls of `UpdateLM`, and there is
no call otherwise. -/
theorem OnFrame_localize_calls (self : Odometry) (g : Globals) (t : Timeval) (ncones : Int)
    (conestheta : List F32) (lm_precision : Int)
    (hw : g.wheel_pos_.valid = true) (hl : self.last_encoders_.valid = true)
    (hn : 0 ≤ ncones) :
    (((OnFrame_localize self g t ncones conestheta lm_precision).2.countP
        LocalizerCall.isPredict = 1) ↔
      (self.firstframe_ = false ∧
        (g.wheel_pos_.w0 ≠ self.last_encoders_.w0 ∨ g.wheel_pos_.w1 ≠ self.last_encoders_.w1 ∨
         g.wheel_pos_.w2 ≠ self.last_encoders_.w2 ∨
         g.wheel_pos_.w3 ≠ self.last_encoders_.w3))) ∧
    ((self.firstframe_ = false ∧
        (g.wheel_pos_.w0 ≠ self.last_encoders_.w0 ∨ g.wheel_pos_.w1 ≠ self.last_encoders_.w1 ∨
         g.wheel_pos_.w2 ≠ self.last_encoders_.w2 ∨
         g.wheel_pos_.w3 ≠ self.last_encoders_.w3)) →
      (OnFrame_localize self g t ncones conestheta lm_precision).2 =
        LocalizerCall.Predict
          ((((g.wheel_pos_.w0 + 65536 - self.last_encoders_.w0) % 65536 +
             (g.wheel_pos_.w1 + 65536 - self.last_encoders_.w1) % 65536 +
             (g.wheel_pos_.w2 + 65536 - self.last_encoders_.w2) % 65536 +
             (g.wheel_pos_.w3 + 65536 - self.last_encoders_.w3) % 65536 : Nat) : ℚ) / 4)
          g.gyro_.z
          ((((t.tv_sec : Int) - (self.last_t_.tv_sec : Int) : Int) : ℚ) +
            (((t.tv_usec : Int) - (self.last_t_.tv_usec : Int) : Int) : ℚ) / 1000000) ::
        (List.range ncones.toNat).map (fun i =>
          LocalizerCall.UpdateLM (conestheta.getD i ⟨0, 0, 0, 0⟩) ((lm_precision : ℚ) / 10)) ∧
      (((OnFrame_localize self g t ncones conestheta lm_precision).2.countP
        (fun c => !c.isPredict) : Nat) : Int) = ncones) ∧
    (¬ (self.firstframe_ = false ∧
        (g.wheel_pos_.w0 ≠ self.last_encoders_.w0 ∨ g.wheel_pos_.w1 ≠ self.last_encoders_.w1 ∨
         g.wheel_pos_.w2 ≠ self.last_encoders_.w2 ∨
         g.wheel_pos_.w3 ≠ self.last_encoders_.w3)) →
      (OnFrame_localize self g t ncones conestheta lm_precision).2 = []) := by
  obtain ⟨a0, a1, a2, a3⟩ := (U16x4.valid_iff _).mp hw
  obtain ⟨b0, b1, b2, b3⟩ := (U16x4.valid_iff _).mp hl
  have hmoved : (self.firstframe_ = false ∧
        (g.wheel_pos_.w0 ≠ self.last_encoders_.w0 ∨ g.wheel_pos_.w1 ≠ self.last_encoders_.w1 ∨
         g.wheel_pos_.w2 ≠ self.last_encoders_.w2 ∨
         g.wheel_pos_.w3 ≠ self.last_encoders_.w3)) →
      (OnFrame_localize self g t ncones conestheta lm_precision).2 =
        LocalizerCall.Predict
          ((((g.wheel_pos_.w0 + 65536 - self.last_encoders_.w0) % 65536 +
             (g.wheel_pos_.w1 + 65536 - self.last_encoders_.w1) % 65536 +
             (g.wheel_pos_.w2 + 65536 - self.last_encoders_.w2) % 65536 +
             (g.wheel_pos_.w3 + 65536 - self.last_encoders_.w3) % 65536 : Nat) : ℚ) / 4)
          g.gyro_.z
          ((((t.tv_sec : Int) - (self.last_t_.tv_sec : Int) : Int) : ℚ) +
            (((t.tv_usec : Int) - (self.last_t_.tv_usec : Int) : Int) : ℚ) / 1000000) ::
        (List.range ncones.toNat).map (fun i =>
          LocalizerCall.UpdateLM (conestheta.getD i ⟨0, 0, 0, 0⟩)
            ((lm_precision : ℚ) / 10)) := by
    rintro ⟨hff, hne⟩
    have hsum : sub16 g.wheel_pos_.w0 self.last_encoders_.w0 +
        sub16 g.wheel_pos_.w1 self.last_encoders_.w1 +
        sub16 g.wheel_pos_.w2 self.last_encoders_.w2 +
        sub16 g.wheel_pos_.w3 self.last_encoders_.w3 ≠ 0 := by
      intro h0
      have z0 := (sub16_eq_zero_iff _ _ a0 b0).mp (by omega)
      have z1 := (sub16_eq_zero_iff _ _ a1 b1).mp (by omega)
      have z2 := (sub16_eq_zero_iff _ _ a2 b2).mp (by omega)
      have z3 := (sub16_eq_zero_iff _ _ a3 b3).mp (by omega)
      rcases hne with h | h | h | h
      · exact h z0
      · exact h z1
      · exact h z2
      · exact h z3
    have hpos := (quarter_pos_iff _).mpr hsum
    simp only [OnFrame_localize, hff, Bool.false_eq_true, if_false, if_pos hpos]
    rw [sub16_eq _ _ a0 b0, sub16_eq _ _ a1 b1, sub16_eq _ _ a2 b2, sub16_eq _ _ a3 b3]
    have e1 : ∀ x : ℚ, 25 / 100 * x = x / 4 := fun x => by ring
    have e2 : ∀ x : ℚ, x * (1 / 10) = x / 10 := fun x => by ring
    have e3 : ∀ x : ℚ, x * (1 / 1000000) = x / 1000000 := fun x => by ring
    simp only [e1, e2, e3]
  have hstill : ¬ (self.firstframe_ = false ∧
        (g.wheel_pos_.w0 ≠ self.last_encoders_.w0 ∨ g.wheel_pos_.w1 ≠ self.last_encoders_.w1 ∨
         g.wheel_pos_.w2 ≠ self.last_encoders_.w2 ∨
         g.wheel_pos_.w3 ≠ self.last_encoders_.w3)) →
      (OnFrame_localize self g t ncones conestheta lm_precision).2 = [] := by
    intro hnot
    have hzero : ¬ (25 / 100 * (((sub16 g.wheel_pos_.w0
          (if self.firstframe_ = true then g.wheel_pos_ else self.last_encoders_).w0 +
        sub16 g.wheel_pos_.w1
          (if self.firstframe_ = true then g.wheel_pos_ else self.last_encoders_).w1 +
        sub16 g.wheel_pos_.w2
          (if self.firstframe_ = true then g.wheel_pos_ else self.last_encoders_).w2 +
        sub16 g.wheel_pos_.w3
          (if self.firstframe_ = true then g.wheel_pos_ else self.last_encoders_).w3 : Nat)
          : ℚ)) > 0) := by
      rw [quarter_pos_iff]
      by_cases hff : self.firstframe_ = true
      · simp only [hff, if_true, sub16_self]
        decide
      · have hff2 : self.firstframe_ = false := by simpa using hff
        have hall : ¬ (g.wheel_pos_.w0 ≠ self.last_encoders_.w0 ∨
            g.wheel_pos_.w1 ≠ self.last_encoders_.w1 ∨
            g.wheel_pos_.w2 ≠ self.last_encoders_.w2 ∨
            g.wheel_pos_.w3 ≠ self.last_encoders_.w3) := fun h => hnot ⟨hff2, h⟩
        simp only [not_or, not_not] at hall
        obtain ⟨h0, h1, h2, h3⟩ := hall
        simp only [hff2, Bool.false_eq_true, if_false, h0, h1, h2, h3, sub16_self]
        decide
    simp only [OnFrame_localize, if_neg hzero]
  have hupd : ∀ i : Nat, (LocalizerCall.UpdateLM (conestheta.getD i ⟨0, 0, 0, 0⟩)
      ((lm_precision : ℚ) / 10)).isPredict = false := fun _ => rfl
  refine ⟨⟨?_, ?_⟩, ?_, hstill⟩
  · intro hcount
    by_contra hnot
    rw [hstill hnot] at hcount
    simp at hcount
  · intro hm
    rw [hmoved hm, List.countP_cons, (countP_updates _ _ hupd).1]
    rfl
  · intro hm
    refine ⟨hmoved hm, ?_⟩
    rw [hmoved hm, List.countP_cons, (countP_updates _ _ hupd).2]
    simp only [LocalizerCall.isPredict, Bool.not_true, Bool.false_eq_true, if_false,
      Nat.add_zero]
    exact Int.toNat_of_nonneg hn

/-- On the first frame after construction `last_encoders_` is first set to the counts just
read, so the four deltas are zero and the localizer is not called, whatever the counts. -/
theorem first_frame_no_calls (t0 : Timeval) (junk : U16x4) (f : FrameIn) :
    ((Odometry.init t0 junk).frame f).2 = [] := by
  have hzero : ¬ (25 / 100 * (((sub16 f.g.wheel_pos_.w0 f.g.wheel_pos_.w0 +
      sub16 f.g.wheel_pos_.w1 f.g.wheel_pos_.w1 + sub16 f.g.wheel_pos_.w2 f.g.wheel_pos_.w2 +
      sub16 f.g.wheel_pos_.w3 f.g.wheel_pos_.w3 : Nat) : ℚ)) > 0) := by
    rw [quarter_pos_iff]
    simp only [sub16_self]
    decide
  simp only [Odometry.frame, Odometry.init, OnFrame_localize, if_true, if_neg hzero]

/-- The members a frame leaves behind (lines 154, 161 and 199): `firstframe_` cleared, the
counts and the time of this frame remembered. -/
theorem frame_members (self : Odometry) (f : FrameIn) :
    (self.frame f).1 =
      { firstframe_ := false, last_encoders_ := f.g.wheel_pos_, last_t_ := f.t } := rfl

/-- The members after a sequence of frames that ends with `f` are those `f` left behind. -/
theorem run_members (self : Odometry) (pre : List FrameIn) (f : FrameIn) :
    self.run (pre ++ [f]) =
      { firstframe_ := false, last_encoders_ := f.g.wheel_pos_, last_t_ := f.t } := by
  simp only [Odometry.run, List.foldl_append, List.foldl_cons, List.foldl_nil]
  exact frame_members _ f

/-- C11. In `Driver::OnFrame`, over every sequence of frames from the constructor, with
16-bit encoder counts and `ncones >= 0` cones found: on the first frame the localizer is not
called; on a frame `f2` that follows a frame `f1` (after any earlier frames `pre`), `Predict`
is invoked exactly once if and only if at least one of the four encoder counts of `f2`
differs from its value at `f1`; in such a frame the calls are `Predict(ds, gyro_[2], dt)`,
with `ds` a quarter of the sum of the four deltas taken modulo `2^16` and `dt` the time
elapsed since `f1`, followed by exactly `ncones` calls of `UpdateLM`; in every other frame
neither is invoked. -/
theorem localizer_advances_iff_moved (t0 : Timeval) (junk : U16x4) (pre : List FrameIn)
    (f1 f2 : FrameIn) (h1 : f1.g.wheel_pos_.valid = true) (h2 : f2.g.wheel_pos_.valid = true)
    (hn : 0 ≤ f2.ncones) :
    (∀ f : FrameIn, ((Odometry.init t0 junk).frame f).2 = []) ∧
    (((((Odometry.init t0 junk).run (pre ++ [f1])).frame f2).2.countP
        LocalizerCall.isPredict = 1) ↔
      (f2.g.wheel_pos_.w0 ≠ f1.g.wheel_pos_.w0 ∨ f2.g.wheel_pos_.w1 ≠ f1.g.wheel_pos_.w1 ∨
       f2.g.wheel_pos_.w2 ≠ f1.g.wheel_pos_.w2 ∨ f2.g.wheel_pos_.w3 ≠ f1.g.wheel_pos_.w3)) ∧
    ((f2.g.wheel_pos_.w0 ≠ f1.g.wheel_pos_.w0 ∨ f2.g.wheel_pos_.w1 ≠ f1.g.wheel_pos_.w1 ∨
       f2.g.wheel_pos_.w2 ≠ f1.g.wheel_pos_.w2 ∨ f2.g.wheel_pos_.w3 ≠ f1.g.wheel_pos_.w3) →
      (((Odometry.init t0 junk).run (pre ++ [f1])).frame f2).2 =
        LocalizerCall.Predict
          ((((f2.g.wheel_pos_.w0 + 65536 - f1.g.wheel_pos_.w0) % 65536 +
             (f2.g.wheel_pos_.w1 + 65536 - f1.g.wheel_pos_.w1) % 65536 +
             (f2.g.wheel_pos_.w2 + 65536 - f1.g.wheel_pos_.w2) % 65536 +
             (f2.g.wheel_pos_.w3 + 65536 - f1.g.wheel_pos_.w3) % 65536 : Nat) : ℚ) / 4)
          f2.g.gyro_.z
          ((((f2.t.tv_sec : Int) - (f1.t.tv_sec : Int) : Int) : ℚ) +
            (((f2.t.tv_usec : Int) - (f1.t.tv_usec : Int) : Int) : ℚ) / 1000000) ::
        (List.range f2.ncones.toNat).map (fun i =>
          LocalizerCall.UpdateLM (f2.conestheta.getD i ⟨0, 0, 0, 0⟩)
            ((f2.lm_precision : ℚ) / 10)) ∧
      ((((((Odometry.init t0 junk).run (pre ++ [f1])).frame f2).2.countP
        (fun c => !c.isPredict) : Nat) : Int) = f2.ncones)) ∧
    (¬ (f2.g.wheel_pos_.w0 ≠ f1.g.wheel_pos_.w0 ∨ f2.g.wheel_pos_.w1 ≠ f1.g.wheel_pos_.w1 ∨
       f2.g.wheel_pos_.w2 ≠ f1.g.wheel_pos_.w2 ∨ f2.g.wheel_pos_.w3 ≠ f1.g.wheel_pos_.w3) →
      (((Odometry.init t0 junk).run (pre ++ [f1])).frame f2).2 = []) := by
  have h := OnFrame_localize_calls
    { firstframe_ := false, last_encoders_ := f1.g.wheel_pos_, last_t_ := f1.t }
    f2.g f2.t f2.ncones f2.conestheta f2.lm_precision h2 h1 hn
  simp only [true_and] at h
  rw [run_members]
  exact ⟨first_frame_no_calls t0 junk, h.1, h.2.1, h.2.2⟩

/-- C11 on frames from the constructor.  The first frame, with the counts
`65535, 2, 3, 4`, calls nothing; on the second, 33333 microseconds later, the first count
has wrapped to 1 (a delta of 2 modulo `2^16`) and two cones were found, so the calls are
`Predict(1/2, gyro_[2], 33333/1000000)` and two `UpdateLM`; on a third frame with the same
counts nothing is called; on a fourth with one count moved and no cone found `Predict` runs
alone. -/
theorem localizer_advances_iff_moved_witness :
    (exFrameIn ⟨65535, 2, 3, 4⟩ 0 2).g.wheel_pos_.valid = true ∧
    (exFrameIn ⟨1, 2, 3, 4⟩ 33333 2).g.wheel_pos_.valid = true ∧
    (0 : Int) ≤ (exFrameIn ⟨1, 2, 3, 4⟩ 33333 2).ncones ∧
    ((Odometry.init ⟨4, 0⟩ ⟨9, 9, 9, 9⟩).frame (exFrameIn ⟨65535, 2, 3, 4⟩ 0 2)).2 = [] ∧
    (((Odometry.init ⟨4, 0⟩ ⟨9, 9, 9, 9⟩).run ([] ++ [exFrameIn ⟨65535, 2, 3, 4⟩ 0 2])).frame
      (exFrameIn ⟨1, 2, 3, 4⟩ 33333 2)).2.countP LocalizerCall.isPredict = 1 ∧
    (((Odometry.init ⟨4, 0⟩ ⟨9, 9, 9, 9⟩).run ([] ++ [exFrameIn ⟨65535, 2, 3, 4⟩ 0 2])).frame
      (exFrameIn ⟨1, 2, 3, 4⟩ 33333 2)).2 =
      [LocalizerCall.Predict (1 / 2) ⟨21, 22, 23, 24⟩ (33333 / 1000000),
       LocalizerCall.UpdateLM ⟨1, 1, 1, 1⟩ 5, LocalizerCall.UpdateLM ⟨2, 2, 2, 2⟩ 5] ∧
    (((Odometry.init ⟨4, 0⟩ ⟨9, 9, 9, 9⟩).run
      ([exFrameIn ⟨65535, 2, 3, 4⟩ 0 2] ++ [exFrameIn ⟨1, 2, 3, 4⟩ 33333 2])).frame
      (exFrameIn ⟨1, 2, 3, 4⟩ 66666 2)).2 = [] ∧
    (((Odometry.init ⟨4, 0⟩ ⟨9, 9, 9, 9⟩).run
      ([exFrameIn ⟨65535, 2, 3, 4⟩ 0 2, exFrameIn ⟨1, 2, 3, 4⟩ 33333 2] ++
        [exFrameIn ⟨1, 2, 3, 4⟩ 66666 2])).frame
      (exFrameIn ⟨1, 2, 3, 5⟩ 99999 0)).2 =
      [LocalizerCall.Predict (1 / 4) ⟨21, 22, 23, 24⟩ (33333 / 1000000)] := by
  have ha := localizer_advances_iff_moved ⟨4, 0⟩ ⟨9, 9, 9, 9⟩ []
    (exFrameIn ⟨65535, 2, 3, 4⟩ 0 2) (exFrameIn ⟨1, 2, 3, 4⟩ 33333 2)
    (by decide) (by decide) (by decide)
  have hb := localizer_advances_iff_moved ⟨4, 0⟩ ⟨9, 9, 9, 9⟩
    [exFrameIn ⟨65535, 2, 3, 4⟩ 0 2]
    (exFrameIn ⟨1, 2, 3, 4⟩ 33333 2) (exFrameIn ⟨1, 2, 3, 4⟩ 66666 2)
    (by decide) (by decide) (by decide)
  have hc := localizer_advances_iff_moved ⟨4, 0⟩ ⟨9, 9, 9, 9⟩
    [exFrameIn ⟨65535, 2, 3, 4⟩ 0 2, exFrameIn ⟨1, 2, 3, 4⟩ 33333 2]
    (exFrameIn ⟨1, 2, 3, 4⟩ 66666 2) (exFrameIn ⟨1, 2, 3, 5⟩ 99999 0)
    (by decide) (by decide) (by decide)
  have hmove : (exFrameIn ⟨1, 2, 3, 4⟩ 33333 2).g.wheel_pos_.w0 ≠
      (exFrameIn ⟨65535, 2, 3, 4⟩ 0 2).g.wheel_pos_.w0 ∨
      (exFrameIn ⟨1, 2, 3, 4⟩ 33333 2).g.wheel_pos_.w1 ≠
      (exFrameIn ⟨65535, 2, 3, 4⟩ 0 2).g.wheel_pos_.w1 ∨
      (exFrameIn ⟨1, 2, 3, 4⟩ 33333 2).g.wheel_pos_.w2 ≠
      (exFrameIn ⟨65535, 2, 3, 4⟩ 0 2).g.wheel_pos_.w2 ∨
      (exFrameIn ⟨1, 2, 3, 4⟩ 33333 2).g.wheel_pos_.w3 ≠
      (exFrameIn ⟨65535, 2, 3, 4⟩ 0 2).g.wheel_pos_.w3 := Or.inl (by decide)
  have hmove2 : (exFrameIn ⟨1, 2, 3, 5⟩ 99999 0).g.wheel_pos_.w0 ≠
      (exFrameIn ⟨1, 2, 3, 4⟩ 66666 2).g.wheel_pos_.w0 ∨
      (exFrameIn ⟨1, 2, 3, 5⟩ 99999 0).g.wheel_pos_.w1 ≠
      (exFrameIn ⟨1, 2, 3, 4⟩ 66666 2).g.wheel_pos_.w1 ∨
      (exFrameIn ⟨1, 2, 3, 5⟩ 99999 0).g.wheel_pos_.w2 ≠
      (exFrameIn ⟨1, 2, 3, 4⟩ 66666 2).g.wheel_pos_.w2 ∨
      (exFrameIn ⟨1, 2, 3, 5⟩ 99999 0).g.wheel_pos_.w3 ≠
      (exFrameIn ⟨1, 2, 3, 4⟩ 66666 2).g.wheel_pos_.w3 :=
    Or.inr (Or.inr (Or.inr (by decide)))
  refine ⟨by decide, by decide, by decide, ha.1 _, ha.2.1.mpr hmove, ?_,
    hb.2.2.2 (by decide), ?_⟩
  · rw [(ha.2.2.1 hmove).1]
    norm_num [exFrameIn, exGlobals, List.range, List.range.loop]
  · rw [(hc.2.2.1 hmove2).1]
    norm_num [exFrameIn, exGlobals, List.range, List.range.loop]

/-! ## The stick axes -/

/-- C13 holds for every stick value but the most negative one: for `-32767 <= v <= 32767`,
`OnAxisMove(1, v)` stores `-v` in `js_throttle_` and the normalised throttle
`js_throttle_/32767` lies in `[-1, 1]`; axis 2 stores `v` unchanged in `js_steering_`, and
any other axis changes nothing. -/
theorem OnAxisMove_in_range (w : World) (v : Int) (hlo : -32767 ≤ v) (hhi : v ≤ 32767) :
    (OnAxisMove w 1 v).js_throttle_ = -v ∧
    -1 ≤ throttle_input (OnAxisMove w 1 v) ∧ throttle_input (OnAxisMove w 1 v) ≤ 1 ∧
    (OnAxisMove w 2 v).js_steering_ = v ∧
    (OnAxisMove w 2 v).js_throttle_ = w.js_throttle_ ∧
    (∀ a : Int, a ≠ 1 → a ≠ 2 → OnAxisMove w a v = w) := by
  have h1 : (OnAxisMove w 1 v).js_throttle_ = -v := by
    simp only [OnAxisMove, if_true, wrap16]
    omega
  refine ⟨h1, ?_, ?_, ?_, ?_, ?_⟩
  · simp only [throttle_input, h1]
    rw [le_div_iff₀ (by norm_num)]
    have : ((-v : Int) : ℚ) ≥ ((-32767 : Int) : ℚ) := by exact_mod_cast (by omega : -v ≥ -32767)
    push_cast at this ⊢
    linarith
  · simp only [throttle_input, h1]
    rw [div_le_iff₀ (by norm_num)]
    have : ((-v : Int) : ℚ) ≤ ((32767 : Int) : ℚ) := by exact_mod_cast (by omega : -v ≤ 32767)
    push_cast at this ⊢
    linarith
  · simp [OnAxisMove]
  · simp [OnAxisMove]
  · intro a ha1 ha2
    simp [OnAxisMove, ha1, ha2]

/-- The in-range part of C13 at the stick value 12000: the stored throttle is -12000. -/
theorem OnAxisMove_in_range_witness :
    (-32767 : Int) ≤ 12000 ∧ (12000 : Int) ≤ 32767 ∧
    (OnAxisMove exWorld 1 12000).js_throttle_ = -12000 ∧
    -1 ≤ throttle_input (OnAxisMove exWorld 1 12000) ∧
    throttle_input (OnAxisMove exWorld 1 12000) ≤ 1 :=
  have h := OnAxisMove_in_range exWorld 12000 (by decide) (by decide)
  ⟨by decide, by decide, h.1, h.2.1, h.2.2.1⟩

/-- C13 at the stick value `-32768`: the `int` negation `32768` does not fit the `int16_t`
variable, `js_throttle_` becomes `-32768` (the same sign as the stick value, not its
negation), and the normalised throttle handed to the controller is `-32768/32767`, below
`-1`. -/
theorem OnAxisMove_most_negative_wraps :
    (OnAxisMove exWorld 1 (-32768)).js_throttle_ = -32768 ∧
    (OnAxisMove exWorld 1 (-32768)).js_throttle_ ≠ -(-32768) ∧
    throttle_input (OnAxisMove exWorld 1 (-32768)) = -32768 / 32767 ∧
    throttle_input (OnAxisMove exWorld 1 (-32768)) < -1 := by
  have h : (OnAxisMove exWorld 1 (-32768)).js_throttle_ = -32768 := by decide
  refine ⟨h, by decide, ?_, ?_⟩
  · simp only [throttle_input, h]; norm_num
  · simp only [throttle_input, h]; norm_num

end Drive

namespace Gps

/-! ## Basic facts about the control cycle -/

theorem clamp_ge {α : Type} [LinearOrderedField α]
    (x lo hi : α) (h : lo ≤ hi) : lo ≤ clamp x lo hi := by
  simp only [clamp]
  split_ifs with h1 h2 h3
  · exact h
  · exact le_refl _
  · exact h
  · exact le_of_not_lt h1

theorem clamp_le {α : Type} [LinearOrderedField α] (x lo hi : α) : clamp x lo hi ≤ hi := by
  simp only [clamp]
  split_ifs with h1 h2 h3
  · exact le_refl _
  · exact le_of_not_lt h2
  · exact le_refl _
  · exact le_of_not_lt h3

theorem SameCore.rfl_ {α : Type} (a : GPSDrive α) : SameCore a a := ⟨rfl, rfl, rfl, rfl, rfl⟩

theorem SameCore.trans_ {α : Type} {a b c : GPSDrive α} (h1 : SameCore a b) (h2 : SameCore b c) :
    SameCore a c :=
  ⟨h2.done_.trans h1.done_, h2.autodrive_.trans h1.autodrive_, h2.ierr_v_.trans h1.ierr_v_,
    h2.ierr_k_.trans h1.ierr_k_, h2.gyro_last_.trans h1.gyro_last_⟩

theorem deliver_same {α : Type} (hdr : ConfigHeader) (self : GPSDrive α) (e : JsEvent) :
    SameCore self (JsEvent.deliver hdr self e) := by
  cases e with
  | DPadPress d =>
    simp only [JsEvent.deliver, OnDPadPress]
    split_ifs <;> exact ⟨rfl, rfl, rfl, rfl, rfl⟩
  | ButtonPress b ok loaded =>
    simp only [JsEvent.deliver, OnButtonPress, StartRecording, StopRecording]
    cases loaded <;> split_ifs <;> exact ⟨rfl, rfl, rfl, rfl, rfl⟩
  | ButtonRelease b =>
    simp only [JsEvent.deliver, OnButtonRelease]
    split_ifs <;> exact ⟨rfl, rfl, rfl, rfl, rfl⟩
  | AxisMove a v =>
    simp only [JsEvent.deliver, OnAxisMove]
    split_ifs <;> exact ⟨rfl, rfl, rfl, rfl, rfl⟩

theorem ReadInput_same {α : Type} (hdr : ConfigHeader) (events : List JsEvent) :
    ∀ self : GPSDrive α, SameCore self (ReadInput hdr self events) := by
  induction events with
  | nil => intro self; exact SameCore.rfl_ self
  | cons e es ih =>
    intro self
    exact (deliver_same hdr self e).trans_ (ih _)

theorem sense_done {α : Type} [LinearOrderedField α]
    (sqrtf : α → α) (self : GPSDrive α) (inp : FrameInput α) :
    (sense sqrtf self inp).1.done_ = self.done_ := by
  simp only [sense]
  cases inp.imu <;> split_ifs <;> rfl

theorem sense_autodrive {α : Type} [LinearOrderedField α]
    (sqrtf : α → α) (self : GPSDrive α) (inp : FrameInput α) :
    (sense sqrtf self inp).1.autodrive_ = self.autodrive_ := by
  simp only [sense]
  cases inp.imu <;> split_ifs <;> rfl

theorem sense_ierr_v {α : Type} [LinearOrderedField α]
    (sqrtf : α → α) (self : GPSDrive α) (inp : FrameInput α) :
    (sense sqrtf self inp).1.ierr_v_ = self.ierr_v_ := by
  simp only [sense]
  cases inp.imu <;> split_ifs <;> rfl

theorem sense_ierr_k {α : Type} [LinearOrderedField α]
    (sqrtf : α → α) (self : GPSDrive α) (inp : FrameInput α) :
    (sense sqrtf self inp).1.ierr_k_ = self.ierr_k_ := by
  simp only [sense]
  cases inp.imu <;> split_ifs <;> rfl

theorem sense_config {α : Type} [LinearOrderedField α]
    (sqrtf : α → α) (self : GPSDrive α) (inp : FrameInput α) :
    (sense sqrtf self inp).1.config_ = self.config_ := by
  simp only [sense]
  cases inp.imu <;> split_ifs <;> rfl

theorem sense_gyro_last_fail {α : Type} [LinearOrderedField α]
    (sqrtf : α → α) (self : GPSDrive α) (inp : FrameInput α)
    (h : inp.imu = none) : (sense sqrtf self inp).1.gyro_last_ = self.gyro_last_ := by
  simp only [sense, h]
  split_ifs <;> rfl

theorem sense_u_s {α : Type} [LinearOrderedField α]
    (sqrtf : α → α) (self : GPSDrive α) (inp : FrameInput α) :
    (sense sqrtf self inp).2.u_s =
      clamp ((sense sqrtf self inp).2.u_steering + (self.config_.servo_offset : α) / 100)
        ((self.config_.servo_min : α) / 100) ((self.config_.servo_max : α) / 100) := by
  have e : ∀ x : α, x * (1 / 100) = x / 100 := fun x => by ring
  simp only [sense, e]
  cases inp.imu <;> rfl

theorem control_length {α : Type} [LinearOrderedField α] (s : GPSDrive α) (l : Locals α) (dt : α) :
    (control s l dt).SetControls.length = 1 := by
  simp only [control]
  split_ifs <;> rfl

theorem control_ret {α : Type} [LinearOrderedField α] (s : GPSDrive α) (l : Locals α) (dt : α) :
    (control s l dt).ret = !s.done_ := by
  simp only [control]
  split_ifs <;> rfl

theorem control_done {α : Type} [LinearOrderedField α] (s : GPSDrive α) (l : Locals α) (dt : α) :
    (control s l dt).self.done_ = s.done_ := by
  simp only [control]
  split_ifs <;> rfl

theorem control_gyro_last {α : Type} [LinearOrderedField α]
    (s : GPSDrive α) (l : Locals α) (dt : α) :
    (control s l dt).self.gyro_last_ = s.gyro_last_ := by
  simp only [control]
  split_ifs <;> rfl

theorem OnControlFrame_eq {α : Type} [LinearOrderedField α]
    (hdr : ConfigHeader) (sqrtf : α → α) (self : GPSDrive α)
    (inp : FrameInput α) (dt : α) :
    OnControlFrame hdr sqrtf self inp dt =
      control (atBranch hdr sqrtf self inp).1 (atBranch hdr sqrtf self inp).2 dt := rfl

theorem atBranch_autodrive {α : Type} [LinearOrderedField α]
    (hdr : ConfigHeader) (sqrtf : α → α) (self : GPSDrive α)
    (inp : FrameInput α) : (atBranch hdr sqrtf self inp).1.autodrive_ = self.autodrive_ := by
  simp only [atBranch]
  rw [sense_autodrive, (ReadInput_same hdr inp.events self).autodrive_]

theorem atBranch_ierr_v {α : Type} [LinearOrderedField α]
    (hdr : ConfigHeader) (sqrtf : α → α) (self : GPSDrive α)
    (inp : FrameInput α) : (atBranch hdr sqrtf self inp).1.ierr_v_ = self.ierr_v_ := by
  simp only [atBranch]
  rw [sense_ierr_v, (ReadInput_same hdr inp.events self).ierr_v_]

theorem atBranch_ierr_k {α : Type} [LinearOrderedField α]
    (hdr : ConfigHeader) (sqrtf : α → α) (self : GPSDrive α)
    (inp : FrameInput α) : (atBranch hdr sqrtf self inp).1.ierr_k_ = self.ierr_k_ := by
  simp only [atBranch]
  rw [sense_ierr_k, (ReadInput_same hdr inp.events self).ierr_k_]

theorem atBranch_done {α : Type} [LinearOrderedField α]
    (hdr : ConfigHeader) (sqrtf : α → α) (self : GPSDrive α)
    (inp : FrameInput α) : (atBranch hdr sqrtf self inp).1.done_ = self.done_ := by
  simp only [atBranch]
  rw [sense_done, (ReadInput_same hdr inp.events self).done_]

/-! ## The speed controller -/

/-- C3. On the speed-control path of `OnControlFrame` (the frame takes neither the manual
pass-through return nor the runaway return) the target speed is
`(speed_limit/100) * clamp(u_throttle, 0, 1)`, exactly one command is issued, and its
throttle is the unclamped proportional+integral output clamped to `[-1, 1]` (when the target
is below 0.9 of the measured speed) or to `[0, 1]`; in both cases it lies in `[-1, 1]`,
whatever the measured speed, time step, integral state and gains. -/
theorem speed_path_throttle_bounded {α : Type} [LinearOrderedField α] (hdr : ConfigHeader)
    (sqrtf : α → α) (self : GPSDrive α) (inp : FrameInput α) (dt : α)
    (s : GPSDrive α) (l : Locals α) (hsl : atBranch hdr sqrtf self inp = (s, l))
    (hman : ¬ (self.autodrive_ = false ∧ l.u_throttle ≤ 5 / 100))
    (hrun : ¬ (self.autodrive_ = true ∧ l.radio_safe = false)) :
    target_v s l = (s.config_.speed_limit : α) / 100 * clamp l.u_throttle 0 1 ∧
    ∃ u : α, (OnControlFrame hdr sqrtf self inp dt).SetControls = [(1, u, l.u_s)] ∧
      -1 ≤ u ∧ u ≤ 1 ∧
      u = (if target_v s l < l.v * (9 / 10) then clamp (u_pi s l dt) (-1) 1
           else clamp (u_pi s l dt) 0 1) := by
  have ha : s.autodrive_ = self.autodrive_ := by
    have := atBranch_autodrive hdr sqrtf self inp
    rw [hsl] at this; exact this
  rw [← ha] at hman hrun
  refine ⟨by simp only [target_v]; ring, ?_⟩
  rw [OnControlFrame_eq, hsl]
  simp only [control, if_neg hman, if_neg hrun]
  refine ⟨_, rfl, ?_, ?_, rfl⟩
  · split_ifs
    · exact clamp_ge _ _ _ (by norm_num)
    · exact le_trans (by norm_num) (clamp_ge _ _ _ (by norm_num))
  · split_ifs <;> exact clamp_le _ _ _

/-- C3 at a concrete frame: radio throttle 1 with the car at rest takes the speed-control
path, and the command issued lies in `[-1, 1]`. -/
theorem speed_path_throttle_bounded_witness :
    ¬ ((GPSDrive.init exConfig : GPSDrive ℚ).autodrive_ = false ∧
        (atBranch exHeader exSqrt (GPSDrive.init exConfig) (exFrame 1 0 0)).2.u_throttle
          ≤ 5 / 100) ∧
    ∃ u : ℚ, (OnControlFrame exHeader exSqrt (GPSDrive.init exConfig) (exFrame 1 0 0)
        (1 / 100)).SetControls =
        [(1, u, (atBranch exHeader exSqrt (GPSDrive.init exConfig) (exFrame 1 0 0)).2.u_s)] ∧
      -1 ≤ u ∧ u ≤ 1 :=
  have hman : ¬ ((GPSDrive.init exConfig : GPSDrive ℚ).autodrive_ = false ∧
        (atBranch exHeader exSqrt (GPSDrive.init exConfig) (exFrame 1 0 0)).2.u_throttle
          ≤ 5 / 100) := by
    norm_num [atBranch, sense, ReadInput, exFrame, exConfig, GPSDrive.init]
  have h := speed_path_throttle_bounded exHeader exSqrt (GPSDrive.init exConfig)
    (exFrame 1 0 0) (1 / 100) _ _ rfl hman (by simp [GPSDrive.init])
  ⟨hman, h.2.imp (fun _ hu => ⟨hu.1, hu.2.1, hu.2.2.1⟩)⟩

/-- C4. On the speed-control path of `OnControlFrame`, with
`verr = target_v - v` and the unclamped output
`u = vgain*verr + kI*(ierr_v + verr*dt)`, the integral term after the frame is
`ierr_v + verr*dt` if `-1 < u < 1` and the unchanged `ierr_v` otherwise. -/
theorem integral_accumulates_iff_unsaturated {α : Type} [LinearOrderedField α]
    (hdr : ConfigHeader) (sqrtf : α → α) (self : GPSDrive α) (inp : FrameInput α) (dt : α)
    (s : GPSDrive α) (l : Locals α) (hsl : atBranch hdr sqrtf self inp = (s, l))
    (hman : ¬ (self.autodrive_ = false ∧ l.u_throttle ≤ 5 / 100))
    (hrun : ¬ (self.autodrive_ = true ∧ l.radio_safe = false))
    (T e u : α) (hT : T = (s.config_.speed_limit : α) / 100 * clamp l.u_throttle 0 1)
    (he : e = T - l.v)
    (hu : u = (s.config_.motor_gain : α) / 100 * e +
      (s.config_.motor_kI : α) / 100 * (self.ierr_v_ + e * dt)) :
    (OnControlFrame hdr sqrtf self inp dt).self.ierr_v_ =
      if -1 < u ∧ u < 1 then self.ierr_v_ + e * dt else self.ierr_v_ := by
  have ha : s.autodrive_ = self.autodrive_ := by
    have := atBranch_autodrive hdr sqrtf self inp
    rw [hsl] at this; exact this
  have hi : s.ierr_v_ = self.ierr_v_ := by
    have := atBranch_ierr_v hdr sqrtf self inp
    rw [hsl] at this; exact this
  rw [← ha] at hman hrun
  have hT2 : target_v s l = T := by rw [hT]; simp only [target_v]; ring
  have he2 : verr s l = e := by rw [he]; simp only [verr, hT2]
  have hu2 : u_pi s l dt = u := by rw [hu]; simp only [u_pi, he2, hi]; ring
  rw [OnControlFrame_eq, hsl]
  simp only [control, if_neg hman, if_neg hrun, hu2, he2, hi, gt_iff_lt]

/-- C4 at a concrete frame: target 1, measured speed 21/20, gain 1, so `u = -1/20` lies
strictly inside the bounds and the integral moves from 0 to `-1/2000`. -/
theorem integral_accumulates_iff_unsaturated_witness :
    ¬ ((GPSDrive.init exConfig : GPSDrive ℚ).autodrive_ = false ∧
        (atBranch exHeader exSqrt (GPSDrive.init exConfig)
          (exFrame 1 0 (21 / 20))).2.u_throttle ≤ 5 / 100) ∧
    (OnControlFrame exHeader exSqrt (GPSDrive.init exConfig) (exFrame 1 0 (21 / 20))
        (1 / 100)).self.ierr_v_ =
      if -1 < (-1 / 20 : ℚ) ∧ (-1 / 20 : ℚ) < 1
      then (GPSDrive.init exConfig : GPSDrive ℚ).ierr_v_ + (-1 / 20) * (1 / 100)
      else (GPSDrive.init exConfig : GPSDrive ℚ).ierr_v_ :=
  have hman : ¬ ((GPSDrive.init exConfig : GPSDrive ℚ).autodrive_ = false ∧
        (atBranch exHeader exSqrt (GPSDrive.init exConfig)
          (exFrame 1 0 (21 / 20))).2.u_throttle ≤ 5 / 100) := by
    norm_num [atBranch, sense, ReadInput, exFrame, exConfig, GPSDrive.init]
  ⟨hman, integral_accumulates_iff_unsaturated exHeader exSqrt (GPSDrive.init exConfig)
    (exFrame 1 0 (21 / 20)) (1 / 100) _ _ rfl hman (by simp [GPSDrive.init]) 1 (-1 / 20)
    (-1 / 20)
    (by norm_num [atBranch, sense, ReadInput, exFrame, exConfig, GPSDrive.init, clamp])
    (by norm_num [atBranch, sense, ReadInput, exFrame, exConfig, GPSDrive.init])
    (by norm_num [atBranch, sense, ReadInput, exFrame, exConfig, GPSDrive.init])⟩

/-! ## States reached from the constructor -/

/-- No branch of lines 182-222 writes `autodrive_`. -/
theorem control_autodrive {α : Type} [LinearOrderedField α]
    (s : GPSDrive α) (l : Locals α) (dt : α) :
    (control s l dt).self.autodrive_ = s.autodrive_ := by
  simp only [control]
  split_ifs <;> rfl

/-- Lines 182-222 write `ierr_k_` only as zero (line 188). -/
theorem control_ierr_k_zero {α : Type} [LinearOrderedField α]
    (s : GPSDrive α) (l : Locals α) (dt : α) (h : s.ierr_k_ = 0) :
    (control s l dt).self.ierr_k_ = 0 := by
  simp only [control]
  split_ifs <;> first | rfl | exact h

/-- A control frame, input dispatch included, leaves `autodrive_` as it was. -/
theorem OnControlFrame_autodrive {α : Type} [LinearOrderedField α] (hdr : ConfigHeader)
    (sqrtf : α → α) (self : GPSDrive α) (inp : FrameInput α) (dt : α) :
    (OnControlFrame hdr sqrtf self inp dt).self.autodrive_ = self.autodrive_ := by
  rw [OnControlFrame_eq, control_autodrive, atBranch_autodrive]

/-- A control frame that starts with `ierr_k_` at zero ends with it at zero. -/
theorem OnControlFrame_ierr_k_zero {α : Type} [LinearOrderedField α] (hdr : ConfigHeader)
    (sqrtf : α → α) (self : GPSDrive α) (inp : FrameInput α) (dt : α)
    (h : self.ierr_k_ = 0) :
    (OnControlFrame hdr sqrtf self inp dt).self.ierr_k_ = 0 := by
  rw [OnControlFrame_eq]
  exact control_ierr_k_zero _ _ _ (by rw [atBranch_ierr_k]; exact h)

/-- The method `Quit` writes neither `autodrive_` nor `ierr_k_`. -/
theorem Quit_keeps {α : Type} (self : GPSDrive α) :
    (Quit self).autodrive_ = self.autodrive_ ∧ (Quit self).ierr_k_ = self.ierr_k_ := by
  simp only [Quit, StopRecording]
  split_ifs <;> exact ⟨rfl, rfl⟩

/-- Control frames and `Quit` keep autodrive disengaged and `ierr_k_` at zero. -/
theorem runOps_keeps_disengaged {α : Type} [LinearOrderedField α] (hdr : ConfigHeader)
    (sqrtf : α → α) (ops : List (Op α)) :
    ∀ self : GPSDrive α, self.autodrive_ = false → self.ierr_k_ = 0 →
      (runOps hdr sqrtf self ops).autodrive_ = false ∧
      (runOps hdr sqrtf self ops).ierr_k_ = 0 := by
  induction ops with
  | nil => intro self h1 h2; exact ⟨h1, h2⟩
  | cons op ops ih =>
    intro self h1 h2
    have hstep : runOps hdr sqrtf self (op :: ops) =
        runOps hdr sqrtf (Op.step hdr sqrtf self op) ops := rfl
    rw [hstep]
    cases op with
    | Frame inp dt =>
      exact ih _ ((OnControlFrame_autodrive hdr sqrtf self inp dt).trans h1)
        (OnControlFrame_ierr_k_zero hdr sqrtf self inp dt h2)
    | Quit =>
      exact ih _ ((Quit_keeps self).1.trans h1) ((Quit_keeps self).2.trans h2)

/-- On every object driven from its constructor (lines 42 and 51) autodrive is disengaged
and `ierr_k_` is zero. -/
theorem reached_disengaged {α : Type} [LinearOrderedField α] (hdr : ConfigHeader)
    (sqrtf : α → α) (cfg : DriverConfig) (ops : List (Op α)) :
    (runOps hdr sqrtf (GPSDrive.init cfg) ops).autodrive_ = false ∧
    (runOps hdr sqrtf (GPSDrive.init cfg) ops).ierr_k_ = 0 :=
  runOps_keeps_disengaged hdr sqrtf ops _ rfl rfl

/-! ## Anti-windup and saturation -/

/-- C5, as stated, fails.  Target 1, measured speed 21/20, gain 1: the frame is on the
speed-control path with unclamped output `-1/20`; the command issued is the clamp bound 0 and
differs from the unclamped output, yet the integral term moves from 0 to `-1/2000`.  And
with the car at rest the unclamped output is exactly 1, the command issued equals it, yet
the integral term stays 0 although `verr*dt = 1/100`. -/
theorem saturated_claim_fails :
    ((GPSDrive.init exConfig : GPSDrive ℚ).autodrive_ = false ∧
      (atBranch exHeader exSqrt (GPSDrive.init exConfig) (exFrame 1 0 (21 / 20))).2.u_throttle
        = 1 ∧
      u_pi (atBranch exHeader exSqrt (GPSDrive.init exConfig) (exFrame 1 0 (21 / 20))).1
        (atBranch exHeader exSqrt (GPSDrive.init exConfig) (exFrame 1 0 (21 / 20))).2
        (1 / 100) = -1 / 20 ∧
      (OnControlFrame exHeader exSqrt (GPSDrive.init exConfig) (exFrame 1 0 (21 / 20))
        (1 / 100)).SetControls = [(1, 0, 0)] ∧
      (GPSDrive.init exConfig : GPSDrive ℚ).ierr_v_ = 0 ∧
      (OnControlFrame exHeader exSqrt (GPSDrive.init exConfig) (exFrame 1 0 (21 / 20))
        (1 / 100)).self.ierr_v_ = -1 / 2000) ∧
    (u_pi (atBranch exHeader exSqrt (GPSDrive.init exConfig) (exFrame 1 0 0)).1
        (atBranch exHeader exSqrt (GPSDrive.init exConfig) (exFrame 1 0 0)).2 (1 / 100) = 1 ∧
      (OnControlFrame exHeader exSqrt (GPSDrive.init exConfig) (exFrame 1 0 0)
        (1 / 100)).SetControls = [(1, 1, 0)] ∧
      verr (atBranch exHeader exSqrt (GPSDrive.init exConfig) (exFrame 1 0 0)).1
        (atBranch exHeader exSqrt (GPSDrive.init exConfig) (exFrame 1 0 0)).2 * (1 / 100)
        = 1 / 100 ∧
      (OnControlFrame exHeader exSqrt (GPSDrive.init exConfig) (exFrame 1 0 0)
        (1 / 100)).self.ierr_v_ = 0) := by
  refine ⟨⟨rfl, rfl, ?_, ?_, rfl, ?_⟩, ?_, ?_, ?_, ?_⟩ <;>
    norm_num [OnControlFrame, atBranch, control, sense, ReadInput, exFrame, exConfig,
      GPSDrive.init, u_pi, verr, target_v, clamp, Vec3.Zero, Vec3.dot, Vec3.sub]

/-- The speed-control path (lines 200-213): the one command issued and the integral term
afterwards. -/
theorem speed_path_frame {α : Type} [LinearOrderedField α]
    (hdr : ConfigHeader) (sqrtf : α → α) (self : GPSDrive α) (inp : FrameInput α) (dt : α)
    (s : GPSDrive α) (l : Locals α) (hsl : atBranch hdr sqrtf self inp = (s, l))
    (hman : ¬ (self.autodrive_ = false ∧ l.u_throttle ≤ 5 / 100))
    (hrun : ¬ (self.autodrive_ = true ∧ l.radio_safe = false)) :
    (OnControlFrame hdr sqrtf self inp dt).SetControls =
      [(1, if target_v s l < l.v * (9 / 10) then clamp (u_pi s l dt) (-1) 1
           else clamp (u_pi s l dt) 0 1, l.u_s)] ∧
    (OnControlFrame hdr sqrtf self inp dt).self.ierr_v_ =
      if -1 < u_pi s l dt ∧ u_pi s l dt < 1 then self.ierr_v_ + verr s l * dt
      else self.ierr_v_ := by
  have ha : s.autodrive_ = self.autodrive_ := by
    have := atBranch_autodrive hdr sqrtf self inp
    rw [hsl] at this; exact this
  have hi : s.ierr_v_ = self.ierr_v_ := by
    have := atBranch_ierr_v hdr sqrtf self inp
    rw [hsl] at this; exact this
  rw [← ha] at hman hrun
  rw [OnControlFrame_eq, hsl]
  constructor <;> simp only [control, if_neg hman, if_neg hrun, hi, gt_iff_lt]

/-- The target speed, the speed error and the unclamped output written out from the
configuration and the inputs. -/
theorem speed_path_terms {α : Type} [LinearOrderedField α]
    (hdr : ConfigHeader) (sqrtf : α → α) (self : GPSDrive α) (inp : FrameInput α) (dt : α)
    (s : GPSDrive α) (l : Locals α) (hsl : atBranch hdr sqrtf self inp = (s, l))
    (T e u : α) (hT : T = (s.config_.speed_limit : α) / 100 * clamp l.u_throttle 0 1)
    (he : e = T - l.v)
    (hu : u = (s.config_.motor_gain : α) / 100 * e +
      (s.config_.motor_kI : α) / 100 * (self.ierr_v_ + e * dt)) :
    target_v s l = T ∧ verr s l = e ∧ u_pi s l dt = u := by
  have hi : s.ierr_v_ = self.ierr_v_ := by
    have := atBranch_ierr_v hdr sqrtf self inp
    rw [hsl] at this; exact this
  have hT2 : target_v s l = T := by rw [hT]; simp only [target_v]; ring
  have he2 : verr s l = e := by rw [he]; simp only [verr, hT2]
  refine ⟨hT2, he2, ?_⟩
  rw [hu]; simp only [u_pi, he2, hi]; ring

/-- C5, amended.  On the speed-control path, with `u` the unclamped proportional+integral
output and `c` the throttle issued: if the output is saturated (`c` differs from `u`; it is
then one of the clamp bounds `-1`, `0`, `1`), the integral term is left unchanged by the
cycle, the case of the bound `0` with `-1 < u < 0` apart, about which nothing is said; if
`c` equals `u`, the integral term is updated by `verr*dt`, except when `u` is exactly `1` or
`-1`, where it is left unchanged. -/
theorem integral_frozen_when_saturated {α : Type} [LinearOrderedField α]
    (hdr : ConfigHeader) (sqrtf : α → α) (self : GPSDrive α) (inp : FrameInput α) (dt : α)
    (s : GPSDrive α) (l : Locals α) (hsl : atBranch hdr sqrtf self inp = (s, l))
    (hman : ¬ (self.autodrive_ = false ∧ l.u_throttle ≤ 5 / 100))
    (hrun : ¬ (self.autodrive_ = true ∧ l.radio_safe = false))
    (T e u : α) (hT : T = (s.config_.speed_limit : α) / 100 * clamp l.u_throttle 0 1)
    (he : e = T - l.v)
    (hu : u = (s.config_.motor_gain : α) / 100 * e +
      (s.config_.motor_kI : α) / 100 * (self.ierr_v_ + e * dt)) :
    (∃ c : α, (OnControlFrame hdr sqrtf self inp dt).SetControls = [(1, c, l.u_s)]) ∧
    ∀ c : α, (OnControlFrame hdr sqrtf self inp dt).SetControls = [(1, c, l.u_s)] →
      (c ≠ u → (c = -1 ∨ c = 0 ∨ c = 1) ∧
        (¬ (c = 0 ∧ -1 < u ∧ u < 0) →
          (OnControlFrame hdr sqrtf self inp dt).self.ierr_v_ = self.ierr_v_)) ∧
      (c = u → u ≠ 1 → u ≠ -1 →
        (OnControlFrame hdr sqrtf self inp dt).self.ierr_v_ = self.ierr_v_ + e * dt) ∧
      (c = u → (u = 1 ∨ u = -1) →
        (OnControlFrame hdr sqrtf self inp dt).self.ierr_v_ = self.ierr_v_) := by
  obtain ⟨hset, hint⟩ := speed_path_frame hdr sqrtf self inp dt s l hsl hman hrun
  obtain ⟨hT2, he2, hu2⟩ := speed_path_terms hdr sqrtf self inp dt s l hsl T e u hT he hu
  rw [hT2, hu2] at hset
  rw [hu2, he2] at hint
  refine ⟨⟨_, hset⟩, ?_⟩
  intro c hc
  have hcc : c = (if T < l.v * (9 / 10) then clamp u (-1) 1 else clamp u 0 1) := by
    rw [hset] at hc
    have h1 := (List.cons.inj hc).1
    exact ((Prod.mk.inj (Prod.mk.inj h1).2).1).symm
  have hfrozen : ¬ (-1 < u ∧ u < 1) →
      (OnControlFrame hdr sqrtf self inp dt).self.ierr_v_ = self.ierr_v_ := by
    intro h; rw [hint, if_neg h]
  have hmoves : (-1 < u ∧ u < 1) →
      (OnControlFrame hdr sqrtf self inp dt).self.ierr_v_ = self.ierr_v_ + e * dt := by
    intro h; rw [hint, if_pos h]
  refine ⟨?_, ?_, ?_⟩
  · intro hne
    constructor
    · simp only [clamp] at hcc
      split_ifs at hcc <;> first
        | exact absurd hcc hne
        | exact Or.inl hcc
        | exact Or.inr (Or.inl hcc)
        | exact Or.inr (Or.inr hcc)
    · intro hex
      apply hfrozen
      rintro ⟨h1, h2⟩
      simp only [clamp] at hcc
      split_ifs at hcc <;> first
        | exact hne hcc
        | linarith
        | exact hex ⟨hcc, h1, by linarith⟩
  · intro hcu h1 h2
    apply hmoves
    rw [hcu] at hcc
    simp only [clamp] at hcc
    split_ifs at hcc <;> first
      | exact absurd hcc h1
      | exact absurd hcc h2
      | (constructor <;> first
          | exact lt_of_le_of_ne (by linarith) (fun hh => h2 hh.symm)
          | exact lt_of_le_of_ne (by linarith) h1)
  · intro _ h
    apply hfrozen
    rintro ⟨h1, h2⟩
    rcases h with h | h <;> rw [h] at h1 h2 <;> exact lt_irrefl _ (by first | exact h1 | exact h2)

/-- The amended C5 at three frames from the constructor state.  With the car rolling back at
`1/2` the output `u = 3/2` is cut to the bound 1 and the integral term keeps its value; with
gain 10 and measured speed `11/10` the output `u = -1` is held at the bound 0 and the integral
term keeps its value; with measured speed `1/2` the command equals `u = 1/2` and the integral
term moves by `verr*dt = 1/2 * 1/100`. -/
theorem integral_frozen_when_saturated_witness :
    ((OnControlFrame exHeader exSqrt (GPSDrive.init exConfig) (exFrame 1 0 (-1 / 2))
        (1 / 100)).SetControls = [(1, 1, 0)] ∧
      (1 : ℚ) ≠ 3 / 2 ∧
      (OnControlFrame exHeader exSqrt (GPSDrive.init exConfig) (exFrame 1 0 (-1 / 2))
        (1 / 100)).self.ierr_v_ = (GPSDrive.init exConfig : GPSDrive ℚ).ierr_v_) ∧
    ((OnControlFrame exHeader exSqrt (GPSDrive.init exConfigStiff) (exFrame 1 0 (11 / 10))
        (1 / 100)).SetControls = [(1, 0, 0)] ∧
      (0 : ℚ) ≠ -1 ∧
      (OnControlFrame exHeader exSqrt (GPSDrive.init exConfigStiff) (exFrame 1 0 (11 / 10))
        (1 / 100)).self.ierr_v_ = (GPSDrive.init exConfigStiff : GPSDrive ℚ).ierr_v_) ∧
    ((OnControlFrame exHeader exSqrt (GPSDrive.init exConfig) (exFrame 1 0 (1 / 2))
        (1 / 100)).SetControls = [(1, 1 / 2, 0)] ∧
      (OnControlFrame exHeader exSqrt (GPSDrive.init exConfig) (exFrame 1 0 (1 / 2))
        (1 / 100)).self.ierr_v_ =
        (GPSDrive.init exConfig : GPSDrive ℚ).ierr_v_ + 1 / 2 * (1 / 100)) := by
  have hman : ∀ (cfg : DriverConfig) (v : ℚ),
      ¬ ((GPSDrive.init cfg : GPSDrive ℚ).autodrive_ = false ∧
        (atBranch exHeader exSqrt (GPSDrive.init cfg) (exFrame 1 0 v)).2.u_throttle
          ≤ 5 / 100) := by
    intro cfg v
    norm_num [atBranch, sense, ReadInput, exFrame, GPSDrive.init]
  have hrun : ∀ (cfg : DriverConfig) (v : ℚ),
      ¬ ((GPSDrive.init cfg : GPSDrive ℚ).autodrive_ = true ∧
        (atBranch exHeader exSqrt (GPSDrive.init cfg) (exFrame 1 0 v)).2.radio_safe
          = false) := by
    intro cfg v
    simp [GPSDrive.init]
  have us : ∀ (cfg : DriverConfig) (v : ℚ), cfg.servo_offset = 0 → cfg.servo_min = -100 →
      cfg.servo_max = 100 →
      (atBranch exHeader exSqrt (GPSDrive.init cfg) (exFrame 1 0 v)).2.u_s = 0 := by
    intro cfg v h1 h2 h3
    norm_num [atBranch, sense, ReadInput, exFrame, GPSDrive.init, clamp, h1, h2, h3]
  have h1 := (integral_frozen_when_saturated exHeader exSqrt (GPSDrive.init exConfig)
    (exFrame 1 0 (-1 / 2)) (1 / 100)
    (atBranch exHeader exSqrt (GPSDrive.init exConfig) (exFrame 1 0 (-1 / 2))).1
    (atBranch exHeader exSqrt (GPSDrive.init exConfig) (exFrame 1 0 (-1 / 2))).2 rfl
    (hman _ _) (hrun _ _) 1 (3 / 2) (3 / 2)
    (by norm_num [atBranch, sense, ReadInput, exFrame, exConfig, GPSDrive.init, clamp])
    (by norm_num [atBranch, sense, ReadInput, exFrame, exConfig, GPSDrive.init])
    (by norm_num [atBranch, sense, ReadInput, exFrame, exConfig, GPSDrive.init])).2
  have h2 := (integral_frozen_when_saturated exHeader exSqrt (GPSDrive.init exConfigStiff)
    (exFrame 1 0 (11 / 10)) (1 / 100)
    (atBranch exHeader exSqrt (GPSDrive.init exConfigStiff) (exFrame 1 0 (11 / 10))).1
    (atBranch exHeader exSqrt (GPSDrive.init exConfigStiff) (exFrame 1 0 (11 / 10))).2 rfl
    (hman _ _) (hrun _ _) 1 (-1 / 10) (-1)
    (by norm_num [atBranch, sense, ReadInput, exFrame, exConfigStiff, GPSDrive.init, clamp])
    (by norm_num [atBranch, sense, ReadInput, exFrame, exConfigStiff, GPSDrive.init])
    (by norm_num [atBranch, sense, ReadInput, exFrame, exConfigStiff, GPSDrive.init])).2
  have h3 := (integral_frozen_when_saturated exHeader exSqrt (GPSDrive.init exConfig)
    (exFrame 1 0 (1 / 2)) (1 / 100)
    (atBranch exHeader exSqrt (GPSDrive.init exConfig) (exFrame 1 0 (1 / 2))).1
    (atBranch exHeader exSqrt (GPSDrive.init exConfig) (exFrame 1 0 (1 / 2))).2 rfl
    (hman _ _) (hrun _ _) 1 (1 / 2) (1 / 2)
    (by norm_num [atBranch, sense, ReadInput, exFrame, exConfig, GPSDrive.init, clamp])
    (by norm_num [atBranch, sense, ReadInput, exFrame, exConfig, GPSDrive.init])
    (by norm_num [atBranch, sense, ReadInput, exFrame, exConfig, GPSDrive.init])).2
  have s1 : (OnControlFrame exHeader exSqrt (GPSDrive.init exConfig) (exFrame 1 0 (-1 / 2))
      (1 / 100)).SetControls = [(1, 1, 0)] := by
    norm_num [OnControlFrame, atBranch, control, sense, ReadInput, exFrame, exConfig,
      GPSDrive.init, u_pi, verr, target_v, clamp, Vec3.Zero, Vec3.dot, Vec3.sub]
  have s2 : (OnControlFrame exHeader exSqrt (GPSDrive.init exConfigStiff)
      (exFrame 1 0 (11 / 10)) (1 / 100)).SetControls = [(1, 0, 0)] := by
    norm_num [OnControlFrame, atBranch, control, sense, ReadInput, exFrame, exConfigStiff,
      GPSDrive.init, u_pi, verr, target_v, clamp, Vec3.Zero, Vec3.dot, Vec3.sub]
  have s3 : (OnControlFrame exHeader exSqrt (GPSDrive.init exConfig) (exFrame 1 0 (1 / 2))
      (1 / 100)).SetControls = [(1, 1 / 2, 0)] := by
    norm_num [OnControlFrame, atBranch, control, sense, ReadInput, exFrame, exConfig,
      GPSDrive.init, u_pi, verr, target_v, clamp, Vec3.Zero, Vec3.dot, Vec3.sub]
  have n1 : (1 : ℚ) ≠ 3 / 2 := by norm_num
  have n2 : (0 : ℚ) ≠ -1 := by norm_num
  refine ⟨⟨s1, n1, ?_⟩, ⟨s2, n2, ?_⟩, ⟨s3, ?_⟩⟩
  · exact ((h1 1 (by rw [s1, us exConfig _ rfl rfl rfl])).1 n1).2 (by norm_num)
  · exact ((h2 0 (by rw [s2, us exConfigStiff _ rfl rfl rfl])).1 n2).2 (by norm_num)
  · exact (h3 (1 / 2) (by rw [s3, us exConfig _ rfl rfl rfl])).2.1 rfl (by norm_num)
      (by norm_num)

/-! ## Manual pass-through -/

/-- C6, as stated, fails.  Autodrive is disengaged and the operator throttle is 1; with the
car measured at speed `1/2` the frame runs the speed controller: the throttle issued is
`1/2`, not the operator throttle, and the integral term is `1/200` when the frame returns. -/
theorem disengaged_claim_fails :
    (GPSDrive.init exConfig : GPSDrive ℚ).autodrive_ = false ∧
    (atBranch exHeader exSqrt (GPSDrive.init exConfig) (exFrame 1 0 (1 / 2))).2.u_throttle
      = 1 ∧
    (OnControlFrame exHeader exSqrt (GPSDrive.init exConfig) (exFrame 1 0 (1 / 2))
      (1 / 100)).SetControls = [(1, 1 / 2, 0)] ∧
    (OnControlFrame exHeader exSqrt (GPSDrive.init exConfig) (exFrame 1 0 (1 / 2))
      (1 / 100)).self.ierr_v_ = 1 / 200 := by
  refine ⟨rfl, rfl, ?_, ?_⟩ <;>
    norm_num [OnControlFrame, atBranch, control, sense, ReadInput, exFrame, exConfig,
      GPSDrive.init, u_pi, verr, target_v, clamp, Vec3.Zero, Vec3.dot, Vec3.sub]

/-- The manual branch: with autodrive disengaged and the operator throttle at most 0.05 the
frame zeroes both integral terms and passes the operator throttle through. -/
theorem manual_branch_resets_integrals {α : Type} [LinearOrderedField α]
    (hdr : ConfigHeader) (sqrtf : α → α) (self : GPSDrive α) (inp : FrameInput α) (dt : α)
    (s : GPSDrive α) (l : Locals α) (hsl : atBranch hdr sqrtf self inp = (s, l))
    (hauto : self.autodrive_ = false) (hthr : l.u_throttle ≤ 5 / 100) :
    (OnControlFrame hdr sqrtf self inp dt).self.ierr_v_ = 0 ∧
    (OnControlFrame hdr sqrtf self inp dt).self.ierr_k_ = 0 ∧
    (OnControlFrame hdr sqrtf self inp dt).SetControls = [(2, l.u_throttle, l.u_s)] := by
  have ha : s.autodrive_ = self.autodrive_ := by
    have := atBranch_autodrive hdr sqrtf self inp
    rw [hsl] at this; exact this
  have hc : s.autodrive_ = false ∧ l.u_throttle ≤ 5 / 100 := ⟨ha.trans hauto, hthr⟩
  rw [OnControlFrame_eq, hsl]
  simp only [control, if_pos hc, and_self]

/-- C6, amended.  On every object driven from its constructor by control frames and `Quit`
autodrive is disengaged, and whatever the operator throttle `ierr_k_` is zero when a frame
returns; and for every control frame executed while autodrive is disengaged with the operator
throttle at most 0.05, `ierr_v_` and `ierr_k_` are both zero when the frame returns and the
one command issued passes the operator throttle through. -/
theorem disengaged_frame_integrals {α : Type} [LinearOrderedField α]
    (hdr : ConfigHeader) (sqrtf : α → α) :
    (∀ (cfg : DriverConfig) (ops : List (Op α)) (inp : FrameInput α) (dt : α),
      (runOps hdr sqrtf (GPSDrive.init cfg) ops).autodrive_ = false ∧
      (OnControlFrame hdr sqrtf (runOps hdr sqrtf (GPSDrive.init cfg) ops) inp
        dt).self.ierr_k_ = 0) ∧
    (∀ (self : GPSDrive α) (inp : FrameInput α) (dt : α) (s : GPSDrive α) (l : Locals α),
      atBranch hdr sqrtf self inp = (s, l) → self.autodrive_ = false →
      l.u_throttle ≤ 5 / 100 →
      (OnControlFrame hdr sqrtf self inp dt).self.ierr_v_ = 0 ∧
      (OnControlFrame hdr sqrtf self inp dt).self.ierr_k_ = 0 ∧
      (OnControlFrame hdr sqrtf self inp dt).SetControls = [(2, l.u_throttle, l.u_s)]) := by
  refine ⟨fun cfg ops inp dt => ?_, fun self inp dt s l hsl hauto hthr => ?_⟩
  · exact ⟨(reached_disengaged hdr sqrtf cfg ops).1,
      OnControlFrame_ierr_k_zero hdr sqrtf _ inp dt (reached_disengaged hdr sqrtf cfg ops).2⟩
  · exact manual_branch_resets_integrals hdr sqrtf self inp dt s l hsl hauto hthr

/-- The amended C6 on a state the code produces.  After one speed-control frame from the
constructor the integral term is `1/200`; the next frame, with the radio throttle at `-1/2`
and the radio steering at `1/4`, resets both integral terms and issues the throttle `-1/2`
it was given; a further speed-control frame, with the radio throttle 1, leaves `ierr_k_` at
zero. -/
theorem disengaged_frame_integrals_witness :
    (runOps exHeader exSqrt (GPSDrive.init exConfig)
      [Op.Frame (exFrame 1 0 (1 / 2)) (1 / 100)]).ierr_v_ = 1 / 200 ∧
    (runOps exHeader exSqrt (GPSDrive.init exConfig)
      [Op.Frame (exFrame 1 0 (1 / 2)) (1 / 100)]).autodrive_ = false ∧
    (atBranch exHeader exSqrt (runOps exHeader exSqrt (GPSDrive.init exConfig)
      [Op.Frame (exFrame 1 0 (1 / 2)) (1 / 100)]) (exFrame (-1 / 2) (1 / 4) 0)).2.u_throttle
      = -1 / 2 ∧
    (atBranch exHeader exSqrt (runOps exHeader exSqrt (GPSDrive.init exConfig)
      [Op.Frame (exFrame 1 0 (1 / 2)) (1 / 100)]) (exFrame (-1 / 2) (1 / 4) 0)).2.u_s
      = 1 / 4 ∧
    (OnControlFrame exHeader exSqrt (runOps exHeader exSqrt (GPSDrive.init exConfig)
      [Op.Frame (exFrame 1 0 (1 / 2)) (1 / 100)]) (exFrame (-1 / 2) (1 / 4) 0)
      (1 / 100)).self.ierr_v_ = 0 ∧
    (OnControlFrame exHeader exSqrt (runOps exHeader exSqrt (GPSDrive.init exConfig)
      [Op.Frame (exFrame 1 0 (1 / 2)) (1 / 100)]) (exFrame (-1 / 2) (1 / 4) 0)
      (1 / 100)).self.ierr_k_ = 0 ∧
    (OnControlFrame exHeader exSqrt (runOps exHeader exSqrt (GPSDrive.init exConfig)
      [Op.Frame (exFrame 1 0 (1 / 2)) (1 / 100)]) (exFrame (-1 / 2) (1 / 4) 0)
      (1 / 100)).SetControls = [(2, -1 / 2, 1 / 4)] ∧
    (OnControlFrame exHeader exSqrt (runOps exHeader exSqrt (GPSDrive.init exConfig)
      [Op.Frame (exFrame 1 0 (1 / 2)) (1 / 100)]) (exFrame 1 0 (1 / 2))
      (1 / 100)).self.ierr_k_ = 0 := by
  have hthr : (atBranch exHeader exSqrt (runOps exHeader exSqrt (GPSDrive.init exConfig)
      [Op.Frame (exFrame 1 0 (1 / 2)) (1 / 100)]) (exFrame (-1 / 2) (1 / 4) 0)).2.u_throttle
      = -1 / 2 := by
    norm_num [atBranch, sense, ReadInput, exFrame]
  have hus : (atBranch exHeader exSqrt (runOps exHeader exSqrt (GPSDrive.init exConfig)
      [Op.Frame (exFrame 1 0 (1 / 2)) (1 / 100)]) (exFrame (-1 / 2) (1 / 4) 0)).2.u_s
      = 1 / 4 := by
    norm_num [runOps, Op.step, OnControlFrame, atBranch, control, sense, ReadInput, exFrame,
      exConfig, GPSDrive.init, u_pi, verr, target_v, clamp, Vec3.Zero, Vec3.dot, Vec3.sub]
  have hi : (runOps exHeader exSqrt (GPSDrive.init exConfig)
      [Op.Frame (exFrame 1 0 (1 / 2)) (1 / 100)]).ierr_v_ = 1 / 200 := by
    norm_num [runOps, Op.step, OnControlFrame, atBranch, control, sense, ReadInput, exFrame,
      exConfig, GPSDrive.init, u_pi, verr, target_v, clamp, Vec3.Zero, Vec3.dot, Vec3.sub]
  have hauto := ((disengaged_frame_integrals exHeader exSqrt).1 exConfig
    [Op.Frame (exFrame 1 0 (1 / 2)) (1 / 100)] (exFrame (-1 / 2) (1 / 4) 0) (1 / 100)).1
  have h := (disengaged_frame_integrals exHeader exSqrt).2
    (runOps exHeader exSqrt (GPSDrive.init exConfig)
      [Op.Frame (exFrame 1 0 (1 / 2)) (1 / 100)])
    (exFrame (-1 / 2) (1 / 4) 0) (1 / 100)
    (atBranch exHeader exSqrt (runOps exHeader exSqrt (GPSDrive.init exConfig)
      [Op.Frame (exFrame 1 0 (1 / 2)) (1 / 100)]) (exFrame (-1 / 2) (1 / 4) 0)).1
    (atBranch exHeader exSqrt (runOps exHeader exSqrt (GPSDrive.init exConfig)
      [Op.Frame (exFrame 1 0 (1 / 2)) (1 / 100)]) (exFrame (-1 / 2) (1 / 4) 0)).2
    rfl hauto (by rw [hthr]; norm_num)
  rw [hthr, hus] at h
  exact ⟨hi, hauto, hthr, hus, h.1, h.2.1, h.2.2,
    ((disengaged_frame_integrals exHeader exSqrt).1 exConfig
      [Op.Frame (exFrame 1 0 (1 / 2)) (1 / 100)] (exFrame 1 0 (1 / 2)) (1 / 100)).2⟩

/-! ## Runaway protection -/

/-- C7, as stated, fails.  Autodrive is disengaged and the radio throttle is `3/10`, not
above 0.5, so `radio_safe` is false; with the car at rest the frame runs the speed
controller and issues throttle `3/10`, not zero. -/
theorem runaway_claim_fails :
    (GPSDrive.init exConfig : GPSDrive ℚ).autodrive_ = false ∧
    (atBranch exHeader exSqrt (GPSDrive.init exConfig) (exFrame (3 / 10) 0 0)).2.radio_safe
      = false ∧
    (OnControlFrame exHeader exSqrt (GPSDrive.init exConfig) (exFrame (3 / 10) 0 0)
      (1 / 100)).SetControls = [(1, 3 / 10, 0)] := by
  refine ⟨rfl, ?_, ?_⟩ <;>
    norm_num [OnControlFrame, atBranch, control, sense, ReadInput, exFrame, exConfig,
      GPSDrive.init, u_pi, verr, target_v, clamp, Vec3.Zero, Vec3.dot, Vec3.sub]

/-- The flag `radio_safe` is false exactly when `GetRadioInput` fails or the radio throttle
is not above 0.5; and the guarded return of lines 195-198: with autodrive engaged and
`radio_safe` false, the one command issued has throttle zero and steering zero. -/
theorem runaway_stops_autodrive {α : Type} [LinearOrderedField α]
    (hdr : ConfigHeader) (sqrtf : α → α) (self : GPSDrive α) (inp : FrameInput α) (dt : α)
    (s : GPSDrive α) (l : Locals α) (hsl : atBranch hdr sqrtf self inp = (s, l)) :
    (l.radio_safe = false ↔
      (inp.radio_input = none ∨ ∃ c : α × α, inp.radio_input = some c ∧ ¬ c.1 > 5 / 10)) ∧
    (self.autodrive_ = true → l.radio_safe = false →
      (OnControlFrame hdr sqrtf self inp dt).SetControls = [(2, 0, 0)]) := by
  have ha : s.autodrive_ = self.autodrive_ := by
    have := atBranch_autodrive hdr sqrtf self inp
    rw [hsl] at this; exact this
  have hl : l = (sense sqrtf (ReadInput hdr self inp.events) inp).2 := by
    have := congrArg Prod.snd hsl
    exact this.symm
  refine ⟨?_, ?_⟩
  · rw [hl]
    simp only [sense]
    cases hr : inp.radio_input with
    | none => simp
    | some c =>
      by_cases hc : c.1 > 5 / 10
      · simp [hc]
      · simp [hc, le_of_not_lt hc]
  · intro hauto hlost
    have ha2 : s.autodrive_ = true := ha.trans hauto
    have hnm : ¬ (s.autodrive_ = false ∧ l.u_throttle ≤ 5 / 100) := by
      rw [ha2]; simp
    rw [OnControlFrame_eq, hsl]
    simp only [control, if_neg hnm, if_pos (And.intro ha2 hlost)]

/-- C7, amended.  An object driven from its constructor never has autodrive engaged.  In
every control frame on such an object `radio_safe` is false exactly when `GetRadioInput`
fails or the radio throttle is not above 0.5, and in a frame in which it is false the one
command issued to the car is the operator throttle passed through when that throttle is at
most 0.05, and otherwise the output of the speed controller for the target speed
`speed_limit/100 * clamp(u_throttle, 0, 1)`, clamped to `[-1, 1]` when the target is below
`0.9 v` and to `[0, 1]` when it is not.  The return with throttle zero and steering zero is
the one taken when `radio_safe` is false with autodrive engaged. -/
theorem runaway_only_under_autodrive {α : Type} [LinearOrderedField α]
    (hdr : ConfigHeader) (sqrtf : α → α) :
    (∀ (cfg : DriverConfig) (ops : List (Op α)) (inp : FrameInput α) (dt : α)
      (s : GPSDrive α) (l : Locals α),
      atBranch hdr sqrtf (runOps hdr sqrtf (GPSDrive.init cfg) ops) inp = (s, l) →
      (runOps hdr sqrtf (GPSDrive.init cfg) ops).autodrive_ = false ∧
      (l.radio_safe = false ↔
        (inp.radio_input = none ∨
          ∃ c : α × α, inp.radio_input = some c ∧ ¬ c.1 > 5 / 10)) ∧
      (l.radio_safe = false → l.u_throttle ≤ 5 / 100 →
        (OnControlFrame hdr sqrtf (runOps hdr sqrtf (GPSDrive.init cfg) ops) inp
          dt).SetControls = [(2, l.u_throttle, l.u_s)]) ∧
      (l.radio_safe = false → ¬ l.u_throttle ≤ 5 / 100 →
        ∀ T e u : α, T = (s.config_.speed_limit : α) / 100 * clamp l.u_throttle 0 1 →
          e = T - l.v →
          u = (s.config_.motor_gain : α) / 100 * e + (s.config_.motor_kI : α) / 100 *
            ((runOps hdr sqrtf (GPSDrive.init cfg) ops).ierr_v_ + e * dt) →
          (OnControlFrame hdr sqrtf (runOps hdr sqrtf (GPSDrive.init cfg) ops) inp
            dt).SetControls =
            [(1, if T < l.v * (9 / 10) then clamp u (-1) 1 else clamp u 0 1, l.u_s)])) ∧
    (∀ (self : GPSDrive α) (inp : FrameInput α) (dt : α) (s : GPSDrive α) (l : Locals α),
      atBranch hdr sqrtf self inp = (s, l) → self.autodrive_ = true →
      l.radio_safe = false →
      (OnControlFrame hdr sqrtf self inp dt).SetControls = [(2, 0, 0)]) := by
  refine ⟨fun cfg ops inp dt s l hsl => ?_, fun self inp dt s l hsl hauto hlost => ?_⟩
  · have hauto := (reached_disengaged hdr sqrtf cfg ops).1
    refine ⟨hauto, (runaway_stops_autodrive hdr sqrtf _ inp dt s l hsl).1, ?_, ?_⟩
    · intro _ hthr
      exact (manual_branch_resets_integrals hdr sqrtf _ inp dt s l hsl hauto hthr).2.2
    · intro _ hthr T e u hT he hu
      have hman : ¬ ((runOps hdr sqrtf (GPSDrive.init cfg) ops).autodrive_ = false ∧
          l.u_throttle ≤ 5 / 100) := fun h => hthr h.2
      have hrun : ¬ ((runOps hdr sqrtf (GPSDrive.init cfg) ops).autodrive_ = true ∧
          l.radio_safe = false) := by
        rw [hauto]; simp
      obtain ⟨hT2, _, hu2⟩ := speed_path_terms hdr sqrtf _ inp dt s l hsl T e u hT he hu
      rw [(speed_path_frame hdr sqrtf _ inp dt s l hsl hman hrun).1, hT2, hu2]
  · exact (runaway_stops_autodrive hdr sqrtf self inp dt s l hsl).2 hauto hlost

/-- The amended C7 on a state the code produces.  After one speed-control frame from the
constructor, a frame in which `GetRadioInput` fails while the joystick reports the throttle
stick at 16384 has `radio_safe` false, the operator throttle `-1/2`, and issues that throttle;
and a frame with the radio throttle `3/10`, not above 0.5, and the wheels at speed `1/10`
has `radio_safe` false and issues the speed controller's output `1/5`. -/
theorem runaway_only_under_autodrive_witness :
    (runOps exHeader exSqrt (GPSDrive.init exConfig)
      [Op.Frame (exFrame 1 0 (1 / 2)) (1 / 100)]).autodrive_ = false ∧
    (atBranch exHeader exSqrt (runOps exHeader exSqrt (GPSDrive.init exConfig)
      [Op.Frame (exFrame 1 0 (1 / 2)) (1 / 100)]) (exFrameStick 16384)).2.radio_safe
      = false ∧
    (atBranch exHeader exSqrt (runOps exHeader exSqrt (GPSDrive.init exConfig)
      [Op.Frame (exFrame 1 0 (1 / 2)) (1 / 100)]) (exFrameStick 16384)).2.u_throttle
      = -1 / 2 ∧
    (OnControlFrame exHeader exSqrt (runOps exHeader exSqrt (GPSDrive.init exConfig)
      [Op.Frame (exFrame 1 0 (1 / 2)) (1 / 100)]) (exFrameStick 16384)
      (1 / 100)).SetControls = [(2, -1 / 2, 0)] ∧
    (atBranch exHeader exSqrt (runOps exHeader exSqrt (GPSDrive.init exConfig)
      [Op.Frame (exFrame 1 0 (1 / 2)) (1 / 100)])
      (exFrame (3 / 10) 0 (1 / 10))).2.radio_safe = false ∧
    (OnControlFrame exHeader exSqrt (runOps exHeader exSqrt (GPSDrive.init exConfig)
      [Op.Frame (exFrame 1 0 (1 / 2)) (1 / 100)]) (exFrame (3 / 10) 0 (1 / 10))
      (1 / 100)).SetControls = [(1, 1 / 5, 0)] := by
  have h1 := (runaway_only_under_autodrive exHeader exSqrt).1 exConfig
    [Op.Frame (exFrame 1 0 (1 / 2)) (1 / 100)] (exFrameStick 16384) (1 / 100)
    (atBranch exHeader exSqrt (runOps exHeader exSqrt (GPSDrive.init exConfig)
      [Op.Frame (exFrame 1 0 (1 / 2)) (1 / 100)]) (exFrameStick 16384)).1
    (atBranch exHeader exSqrt (runOps exHeader exSqrt (GPSDrive.init exConfig)
      [Op.Frame (exFrame 1 0 (1 / 2)) (1 / 100)]) (exFrameStick 16384)).2 rfl
  have h2 := (runaway_only_under_autodrive exHeader exSqrt).1 exConfig
    [Op.Frame (exFrame 1 0 (1 / 2)) (1 / 100)] (exFrame (3 / 10) 0 (1 / 10)) (1 / 100)
    (atBranch exHeader exSqrt (runOps exHeader exSqrt (GPSDrive.init exConfig)
      [Op.Frame (exFrame 1 0 (1 / 2)) (1 / 100)]) (exFrame (3 / 10) 0 (1 / 10))).1
    (atBranch exHeader exSqrt (runOps exHeader exSqrt (GPSDrive.init exConfig)
      [Op.Frame (exFrame 1 0 (1 / 2)) (1 / 100)]) (exFrame (3 / 10) 0 (1 / 10))).2 rfl
  have hr1 : (atBranch exHeader exSqrt (runOps exHeader exSqrt (GPSDrive.init exConfig)
      [Op.Frame (exFrame 1 0 (1 / 2)) (1 / 100)]) (exFrameStick 16384)).2.radio_safe
      = false := h1.2.1.mpr (Or.inl rfl)
  have hr2 : (atBranch exHeader exSqrt (runOps exHeader exSqrt (GPSDrive.init exConfig)
      [Op.Frame (exFrame 1 0 (1 / 2)) (1 / 100)])
      (exFrame (3 / 10) 0 (1 / 10))).2.radio_safe = false :=
    h2.2.1.mpr (Or.inr ⟨(3 / 10, 0), rfl, by norm_num⟩)
  have ht1 : (atBranch exHeader exSqrt (runOps exHeader exSqrt (GPSDrive.init exConfig)
      [Op.Frame (exFrame 1 0 (1 / 2)) (1 / 100)]) (exFrameStick 16384)).2.u_throttle
      = -1 / 2 := by
    norm_num [runOps, Op.step, OnControlFrame, atBranch, control, sense, ReadInput,
      JsEvent.deliver, OnAxisMove, Drive.wrap16, exFrame, exFrameStick, exConfig,
      GPSDrive.init, u_pi, verr, target_v, clamp, Vec3.Zero, Vec3.dot, Vec3.sub]
  have hs1 : (atBranch exHeader exSqrt (runOps exHeader exSqrt (GPSDrive.init exConfig)
      [Op.Frame (exFrame 1 0 (1 / 2)) (1 / 100)]) (exFrameStick 16384)).2.u_s = 0 := by
    norm_num [runOps, Op.step, OnControlFrame, atBranch, control, sense, ReadInput,
      JsEvent.deliver, OnAxisMove, Drive.wrap16, exFrame, exFrameStick, exConfig,
      GPSDrive.init, u_pi, verr, target_v, clamp, Vec3.Zero, Vec3.dot, Vec3.sub]
  have hc1 := h1.2.2.1 hr1 (by rw [ht1]; norm_num)
  rw [ht1, hs1] at hc1
  have hc2 := h2.2.2.2 hr2
    (by norm_num [atBranch, sense, ReadInput, exFrame])
    (3 / 10) (1 / 5) (1 / 5)
    (by norm_num [runOps, Op.step, OnControlFrame, atBranch, control, sense, ReadInput,
      exFrame, exConfig, GPSDrive.init, u_pi, verr, target_v, clamp, Vec3.Zero, Vec3.dot,
      Vec3.sub])
    (by norm_num [runOps, Op.step, OnControlFrame, atBranch, control, sense, ReadInput,
      exFrame, exConfig, GPSDrive.init, u_pi, verr, target_v, clamp, Vec3.Zero, Vec3.dot,
      Vec3.sub])
    (by norm_num [runOps, Op.step, OnControlFrame, atBranch, control, sense, ReadInput,
      exFrame, exConfig, GPSDrive.init, u_pi, verr, target_v, clamp, Vec3.Zero, Vec3.dot,
      Vec3.sub])
  have hs2 : (atBranch exHeader exSqrt (runOps exHeader exSqrt (GPSDrive.init exConfig)
      [Op.Frame (exFrame 1 0 (1 / 2)) (1 / 100)]) (exFrame (3 / 10) 0 (1 / 10))).2.u_s
      = 0 := by
    norm_num [runOps, Op.step, OnControlFrame, atBranch, control, sense, ReadInput,
      exFrame, exConfig, GPSDrive.init, u_pi, verr, target_v, clamp, Vec3.Zero, Vec3.dot,
      Vec3.sub]
  have hv2 : (atBranch exHeader exSqrt (runOps exHeader exSqrt (GPSDrive.init exConfig)
      [Op.Frame (exFrame 1 0 (1 / 2)) (1 / 100)]) (exFrame (3 / 10) 0 (1 / 10))).2.v
      = 1 / 10 := by
    norm_num [runOps, Op.step, OnControlFrame, atBranch, control, sense, ReadInput,
      exFrame, exConfig, GPSDrive.init, u_pi, verr, target_v, clamp, Vec3.Zero, Vec3.dot,
      Vec3.sub]
  rw [hs2, hv2] at hc2
  norm_num [clamp] at hc2
  exact ⟨h1.1, hr1, ht1, hc1, hr2, hc2⟩

/-! ## Steering range -/

/-- The steering a frame computes at lines 146-147, in hundredths written as quotients. -/
theorem steering_value {α : Type} [LinearOrderedField α]
    (hdr : ConfigHeader) (sqrtf : α → α) (self : GPSDrive α) (inp : FrameInput α)
    (s : GPSDrive α) (l : Locals α) (hsl : atBranch hdr sqrtf self inp = (s, l)) :
    l.u_s = clamp (l.u_steering + (s.config_.servo_offset : α) / 100)
      ((s.config_.servo_min : α) / 100) ((s.config_.servo_max : α) / 100) := by
  have hl : l = (sense sqrtf (ReadInput hdr self inp.events) inp).2 := by
    have := congrArg Prod.snd hsl
    exact this.symm
  have hs : s = (sense sqrtf (ReadInput hdr self inp.events) inp).1 := by
    have := congrArg Prod.fst hsl
    exact this.symm
  have hcfg : s.config_ = (ReadInput hdr self inp.events).config_ := by
    rw [hs, sense_config]
  rw [hl, hcfg]; exact sense_u_s sqrtf _ inp

/-- C8.  For every control frame executed on an object driven from its constructor by
control frames and `Quit`, with `servo_min <= servo_max` in the configuration in force, the
one command issued to the car carries the steering
`clamp(u_steering + servo_offset/100, servo_min/100, servo_max/100)`, which lies within
`[servo_min/100, servo_max/100]`; every such frame is on the manual or on the speed-control
path. -/
theorem steering_within_range {α : Type} [LinearOrderedField α]
    (hdr : ConfigHeader) (sqrtf : α → α) (cfg : DriverConfig) (ops : List (Op α))
    (inp : FrameInput α) (dt : α) (s : GPSDrive α) (l : Locals α)
    (hsl : atBranch hdr sqrtf (runOps hdr sqrtf (GPSDrive.init cfg) ops) inp = (s, l))
    (hrange : s.config_.servo_min ≤ s.config_.servo_max) :
    (∃ (led : Nat) (u : α),
      (OnControlFrame hdr sqrtf (runOps hdr sqrtf (GPSDrive.init cfg) ops) inp
        dt).SetControls = [(led, u, l.u_s)] ∧ (led = 2 ∨ led = 1)) ∧
    l.u_s = clamp (l.u_steering + (s.config_.servo_offset : α) / 100)
      ((s.config_.servo_min : α) / 100) ((s.config_.servo_max : α) / 100) ∧
    (s.config_.servo_min : α) / 100 ≤ l.u_s ∧ l.u_s ≤ (s.config_.servo_max : α) / 100 ∧
    ¬ ((runOps hdr sqrtf (GPSDrive.init cfg) ops).autodrive_ = true ∧
      l.radio_safe = false) := by
  have hauto := (reached_disengaged hdr sqrtf cfg ops).1
  have hrun : ¬ ((runOps hdr sqrtf (GPSDrive.init cfg) ops).autodrive_ = true ∧
      l.radio_safe = false) := by
    rw [hauto]; simp
  have hus := steering_value hdr sqrtf _ inp s l hsl
  have hle : (s.config_.servo_min : α) / 100 ≤ (s.config_.servo_max : α) / 100 := by
    have : (s.config_.servo_min : α) ≤ (s.config_.servo_max : α) := by exact_mod_cast hrange
    exact div_le_div_of_nonneg_right this (by norm_num)
  have hb1 : (s.config_.servo_min : α) / 100 ≤ l.u_s := by
    rw [hus]; exact clamp_ge _ _ _ hle
  have hb2 : l.u_s ≤ (s.config_.servo_max : α) / 100 := by
    rw [hus]; exact clamp_le _ _ _
  refine ⟨?_, hus, hb1, hb2, hrun⟩
  by_cases hthr : l.u_throttle ≤ 5 / 100
  · exact ⟨2, _, (manual_branch_resets_integrals hdr sqrtf _ inp dt s l hsl hauto hthr).2.2,
      Or.inl rfl⟩
  · have hman : ¬ ((runOps hdr sqrtf (GPSDrive.init cfg) ops).autodrive_ = false ∧
        l.u_throttle ≤ 5 / 100) := fun h => hthr h.2
    exact ⟨1, _, (speed_path_frame hdr sqrtf _ inp dt s l hsl hman hrun).1, Or.inr rfl⟩

/-- C8 on a state the code produces.  With the steering range `[0.10, 0.20]`, after one
frame from the constructor: the radio steering `1/2` is issued as `1/5` on the speed-control
path, and the radio steering `-1/2` is issued as `1/10` on the manual path. -/
theorem steering_within_range_witness :
    (atBranch exHeader exSqrt (runOps exHeader exSqrt (GPSDrive.init exConfigNarrow)
      [Op.Frame (exFrame 1 0 0) (1 / 100)]) (exFrame 1 (1 / 2) 0)).1.config_.servo_min ≤
    (atBranch exHeader exSqrt (runOps exHeader exSqrt (GPSDrive.init exConfigNarrow)
      [Op.Frame (exFrame 1 0 0) (1 / 100)]) (exFrame 1 (1 / 2) 0)).1.config_.servo_max ∧
    (atBranch exHeader exSqrt (runOps exHeader exSqrt (GPSDrive.init exConfigNarrow)
      [Op.Frame (exFrame 1 0 0) (1 / 100)]) (exFrame 1 (1 / 2) 0)).2.u_s = 1 / 5 ∧
    (OnControlFrame exHeader exSqrt (runOps exHeader exSqrt (GPSDrive.init exConfigNarrow)
      [Op.Frame (exFrame 1 0 0) (1 / 100)]) (exFrame 1 (1 / 2) 0) (1 / 100)).SetControls
      = [(1, 1, 1 / 5)] ∧
    (atBranch exHeader exSqrt (runOps exHeader exSqrt (GPSDrive.init exConfigNarrow)
      [Op.Frame (exFrame 1 0 0) (1 / 100)]) (exFrame 0 (-1 / 2) 0)).2.u_s = 1 / 10 ∧
    (OnControlFrame exHeader exSqrt (runOps exHeader exSqrt (GPSDrive.init exConfigNarrow)
      [Op.Frame (exFrame 1 0 0) (1 / 100)]) (exFrame 0 (-1 / 2) 0) (1 / 100)).SetControls
      = [(2, 0, 1 / 10)] ∧
    (∃ (led : Nat) (u : ℚ),
      (OnControlFrame exHeader exSqrt (runOps exHeader exSqrt (GPSDrive.init exConfigNarrow)
        [Op.Frame (exFrame 1 0 0) (1 / 100)]) (exFrame 1 (1 / 2) 0) (1 / 100)).SetControls
        = [(led, u, 1 / 5)] ∧ (led = 2 ∨ led = 1)) ∧
    (10 : ℚ) / 100 ≤ 1 / 5 ∧ (1 : ℚ) / 5 ≤ 20 / 100 := by
  have hrange : (atBranch exHeader exSqrt (runOps exHeader exSqrt
      (GPSDrive.init exConfigNarrow) [Op.Frame (exFrame 1 0 0) (1 / 100)])
      (exFrame 1 (1 / 2) 0)).1.config_.servo_min ≤
    (atBranch exHeader exSqrt (runOps exHeader exSqrt (GPSDrive.init exConfigNarrow)
      [Op.Frame (exFrame 1 0 0) (1 / 100)]) (exFrame 1 (1 / 2) 0)).1.config_.servo_max := by
    norm_num [runOps, Op.step, OnControlFrame, atBranch, control, sense, ReadInput,
      exFrame, exConfigNarrow, GPSDrive.init, u_pi, verr, target_v, clamp, Vec3.Zero,
      Vec3.dot, Vec3.sub]
  have h := steering_within_range exHeader exSqrt exConfigNarrow
    [Op.Frame (exFrame 1 0 0) (1 / 100)] (exFrame 1 (1 / 2) 0) (1 / 100)
    (atBranch exHeader exSqrt (runOps exHeader exSqrt (GPSDrive.init exConfigNarrow)
      [Op.Frame (exFrame 1 0 0) (1 / 100)]) (exFrame 1 (1 / 2) 0)).1
    (atBranch exHeader exSqrt (runOps exHeader exSqrt (GPSDrive.init exConfigNarrow)
      [Op.Frame (exFrame 1 0 0) (1 / 100)]) (exFrame 1 (1 / 2) 0)).2 rfl hrange
  have hus : (atBranch exHeader exSqrt (runOps exHeader exSqrt (GPSDrive.init exConfigNarrow)
      [Op.Frame (exFrame 1 0 0) (1 / 100)]) (exFrame 1 (1 / 2) 0)).2.u_s = 1 / 5 := by
    norm_num [runOps, Op.step, OnControlFrame, atBranch, control, sense, ReadInput,
      exFrame, exConfigNarrow, GPSDrive.init, u_pi, verr, target_v, clamp, Vec3.Zero,
      Vec3.dot, Vec3.sub]
  have hcfg : (atBranch exHeader exSqrt (runOps exHeader exSqrt
      (GPSDrive.init exConfigNarrow) [Op.Frame (exFrame 1 0 0) (1 / 100)])
      (exFrame 1 (1 / 2) 0)).1.config_ = exConfigNarrow := by
    norm_num [runOps, Op.step, OnControlFrame, atBranch, control, sense, ReadInput,
      exFrame, exConfigNarrow, GPSDrive.init, u_pi, verr, target_v, clamp, Vec3.Zero,
      Vec3.dot, Vec3.sub]
  rw [hus, hcfg] at h
  refine ⟨hrange, hus, ?_, ?_, ?_, h.1, ?_, ?_⟩
  · norm_num [runOps, Op.step, OnControlFrame, atBranch, control, sense, ReadInput,
      exFrame, exConfigNarrow, GPSDrive.init, u_pi, verr, target_v, clamp, Vec3.Zero,
      Vec3.dot, Vec3.sub]
  · norm_num [runOps, Op.step, OnControlFrame, atBranch, control, sense, ReadInput,
      exFrame, exConfigNarrow, GPSDrive.init, u_pi, verr, target_v, clamp, Vec3.Zero,
      Vec3.dot, Vec3.sub]
  · norm_num [runOps, Op.step, OnControlFrame, atBranch, control, sense, ReadInput,
      exFrame, exConfigNarrow, GPSDrive.init, u_pi, verr, target_v, clamp, Vec3.Zero,
      Vec3.dot, Vec3.sub]
  · have := h.2.2.1
    simpa [exConfigNarrow] using this
  · have := h.2.2.2.1
    simpa [exConfigNarrow] using this

/-! ## One command per cycle -/

theorem OnControlFrame_done {α : Type} [LinearOrderedField α] (hdr : ConfigHeader)
    (sqrtf : α → α) (self : GPSDrive α) (inp : FrameInput α) (dt : α) :
    (OnControlFrame hdr sqrtf self inp dt).self.done_ = self.done_ := by
  rw [OnControlFrame_eq, control_done, atBranch_done]

theorem Quit_done {α : Type} (self : GPSDrive α) : (Quit self).done_ = true := by
  simp only [Quit, StopRecording]
  split_ifs <;> rfl

theorem runOps_done {α : Type} [LinearOrderedField α] (hdr : ConfigHeader) (sqrtf : α → α)
    (ops : List (Op α)) :
    ∀ self : GPSDrive α,
      (runOps hdr sqrtf self ops).done_ = (self.done_ || quitCalled ops) := by
  induction ops with
  | nil => intro self; simp [runOps, quitCalled]
  | cons op ops ih =>
    intro self
    have hstep : runOps hdr sqrtf self (op :: ops) =
        runOps hdr sqrtf (Op.step hdr sqrtf self op) ops := rfl
    rw [hstep, ih]
    cases op with
    | Frame inp dt =>
      simp only [Op.step, quitCalled, OnControlFrame_done]
    | Quit =>
      simp only [Op.step, quitCalled, Quit_done, Bool.true_or, Bool.or_true]

/-- C9. Every invocation of `OnControlFrame` issues exactly one `SetControls` call, whatever
the outcome of the IMU, magnetometer and radio reads; after a failed IMU read the cycle works
with the zero accel vector and with the zero gyro vector (from which the bias is then
subtracted) and leaves `gyro_last_` as it was; and, on an object driven from its constructor
by control cycles and `Quit` calls, a cycle returns true if and only if `Quit` has not been
called. -/
theorem one_command_every_cycle {α : Type} [LinearOrderedField α] (hdr : ConfigHeader)
    (sqrtf : α → α) :
    (∀ (self : GPSDrive α) (inp : FrameInput α) (dt : α),
      (OnControlFrame hdr sqrtf self inp dt).SetControls.length = 1) ∧
    (∀ (self : GPSDrive α) (inp : FrameInput α) (dt : α), inp.imu = none →
      (atBranch hdr sqrtf self inp).2.accel = Vec3.Zero ∧
      (atBranch hdr sqrtf self inp).2.gyro =
        Vec3.sub Vec3.Zero (ReadInput hdr self inp.events).gyro_bias_ ∧
      (OnControlFrame hdr sqrtf self inp dt).self.gyro_last_ = self.gyro_last_) ∧
    (∀ (cfg : DriverConfig) (ops : List (Op α)) (inp : FrameInput α) (dt : α),
      (OnControlFrame hdr sqrtf (runOps hdr sqrtf (GPSDrive.init cfg) ops) inp dt).ret = true ↔
        quitCalled ops = false) := by
  refine ⟨fun self inp dt => ?_, fun self inp dt himu => ?_, fun cfg ops inp dt => ?_⟩
  · rw [OnControlFrame_eq]; exact control_length _ _ _
  · refine ⟨?_, ?_, ?_⟩
    · simp only [atBranch, sense, himu]
    · simp only [atBranch, sense, himu]
    · rw [OnControlFrame_eq, control_gyro_last]
      simp only [atBranch]
      rw [sense_gyro_last_fail sqrtf _ inp himu, (ReadInput_same hdr inp.events self).gyro_last_]
  · rw [OnControlFrame_eq, control_ret, atBranch_done, runOps_done]
    simp [GPSDrive.init]

/-- C9 at concrete inputs: a cycle in which every read fails issues one command and leaves
`gyro_last_` alone, and after a cycle followed by `Quit` the next cycle returns false. -/
theorem one_command_every_cycle_witness :
    (exFrameNoRadio 0).imu = none ∧
    (OnControlFrame exHeader exSqrt (GPSDrive.init exConfig) (exFrameNoRadio 0)
      (1 / 100)).SetControls.length = 1 ∧
    (OnControlFrame exHeader exSqrt (GPSDrive.init exConfig) (exFrameNoRadio 0)
      (1 / 100)).self.gyro_last_ = (GPSDrive.init exConfig : GPSDrive ℚ).gyro_last_ ∧
    ((OnControlFrame exHeader exSqrt
      (runOps exHeader exSqrt (GPSDrive.init exConfig)
        [Op.Frame (exFrame 1 0 0) (1 / 100), Op.Quit])
      (exFrame 1 0 0) (1 / 100)).ret = true ↔
      quitCalled [Op.Frame (exFrame 1 0 0) (1 / 100), Op.Quit] = false) :=
  ⟨rfl, (one_command_every_cycle exHeader exSqrt).1 _ _ _,
    ((one_command_every_cycle exHeader exSqrt).2.1 (GPSDrive.init exConfig)
      (exFrameNoRadio 0) (1 / 100) rfl).2.2,
    (one_command_every_cycle exHeader exSqrt).2.2 exConfig _ _ _⟩

/-! ## The magnetometer divisor -/

theorem renorm_of_failed_mag {α : Type} [LinearOrderedField α] (hdr : ConfigHeader)
    (sqrtf : α → α) (self : GPSDrive α) (inp : FrameInput α) (hmag : inp.mag = none) :
    (atBranch hdr sqrtf self inp).2.mag = Vec3.Zero ∧
    (atBranch hdr sqrtf self inp).2.renorm = sqrtf 0 := by
  simp only [atBranch, sense, hmag, Vec3.dot, Vec3.Zero, MAGCALN, MAGCALE]
  refine ⟨trivial, ?_⟩
  congr 1
  ring

/-- C12 fails on the code.  In every frame in which `ReadMag` fails the reading is replaced
by the zero vector, `MagN` and `MagE` are zero, and the divisor
`renorm = sqrt(MagN^2 + MagE^2)` is zero, not strictly positive: lines 127-128 divide zero
by zero.  Stated over the reals with the real square root. -/
theorem renorm_zero_when_mag_fails (hdr : ConfigHeader) (self : GPSDrive ℝ)
    (inp : FrameInput ℝ) :
    (atBranch hdr Real.sqrt self { inp with mag := none }).2.mag = Vec3.Zero ∧
    (atBranch hdr Real.sqrt self { inp with mag := none }).2.renorm = 0 ∧
    ¬ (0 < (atBranch hdr Real.sqrt self { inp with mag := none }).2.renorm) := by
  have h := renorm_of_failed_mag hdr Real.sqrt self { inp with mag := none } rfl
  rw [Real.sqrt_zero] at h
  exact ⟨h.1, h.2, by rw [h.2]; exact lt_irrefl 0⟩

end Gps
